import Mathlib

/-!
Verification development for the `GraphClient` request dispatcher of the
ms-365-mcp-server repository (`src/oauth-provider.ts`, second document:
the `GraphClient` class, together with `src/lib/microsoft-auth.ts`).

Modelling conventions (shallow embedding of the TypeScript):

* JSON values are the inductive `Json`.  JavaScript numbers are modelled as
  `Int`; the claims under study never depend on numeric payloads.
* JavaScript string-falsiness (`""`, `null`, `undefined` are falsy) is
  modelled by `truthyOpt` / `jsOr` / `isTruthy` over `Option String`.
* `fetch` and the external `AuthManager` (whose implementation `auth.js` is
  not part of the dispatcher source) are oracles: a `World` carries an
  infinite response oracle plus an event log; `Auth` carries the values the
  auth-manager collaborator returns.  Ghost events (`Event.tokenRefresh`,
  `Event.expandScopes`, ...) instrument the log so that "at most one
  refresh/expansion" is a statement about runs.
* In-place mutation of a JSON tree (the `delete obj[key]` loops) is modelled
  by a function computing the value of the mutated object after the call.
* `JSON.stringify(x, null, 2)` pretty-printing whitespace and
  percent-encoding of `URLSearchParams` are abstracted: `render` is a
  compact serializer.  No claim depends on whitespace or encoding.
* Session-map values are `Option String`: `some s` is a string session id,
  `none` models a JavaScript `undefined` entry (`sessions.set(p, result.id)`
  when `result.id` is absent).  Non-string session ids are outside the model.
-/

/-- JS `String.prototype.startsWith`, via character lists so that it
evaluates by `decide` inside the kernel. -/
def strStarts (s pat : String) : Bool := pat.toList.isPrefixOf s.toList

/-- Helper for `containsSub`: does `pat` occur inside the list? -/
def hasInfix (pat : List Char) : List Char → Bool
  | [] => pat.isEmpty
  | c :: rest => pat.isPrefixOf (c :: rest) || hasInfix pat rest

/-- JS `String.prototype.includes`. -/
def containsSub (s pat : String) : Bool := hasInfix pat.toList s.toList

mutual

/-- JSON values.  Arrays and objects use the mutually inductive `JsonList` /
`JsonFields` so that every function below is structurally recursive (and
hence reduces inside the kernel); `jarr` / `jfields` build them from
ordinary lists. -/
inductive Json where
  | null : Json
  | bool : Bool → Json
  | num : Int → Json
  | str : String → Json
  | arr : JsonList → Json
  | obj : JsonFields → Json

inductive JsonList where
  | nil : JsonList
  | cons : Json → JsonList → JsonList

inductive JsonFields where
  | nil : JsonFields
  | cons : String → Json → JsonFields → JsonFields

end

def jarr (xs : List Json) : JsonList := xs.foldr .cons .nil

def jfields (fs : List (String × Json)) : JsonFields :=
  fs.foldr (fun kv r => .cons kv.1 kv.2 r) .nil

/-- The key list of a JSON object (JS `Object.keys`). -/
def JsonFields.keys : JsonFields → List String
  | .nil => []
  | .cons k _ fs => k :: keys fs

/- `removeODataProps` of `formatJsonResponse` (oauth-provider.ts:346-356):
for an object, every key starting with `"@odata."` is deleted and the
remaining values are visited recursively (recursion into non-objects is a
no-op, so it is applied uniformly); arrays are visited element-wise (in JS an
array is an object whose keys are its indices, and no index starts with
`"@odata."`).  The Lean function returns the value of the mutated tree. -/
mutual

/-- See the comment above this mutual block. -/
def removeODataProps : Json → Json
  | .obj fs => .obj (stripNewFields fs)
  | .arr xs => .arr (stripNewList xs)
  | j => j
termination_by structural j => j

def stripNewList : JsonList → JsonList
  | .nil => .nil
  | .cons x xs => .cons (removeODataProps x) (stripNewList xs)
termination_by structural xs => xs

def stripNewFields : JsonFields → JsonFields
  | .nil => .nil
  | .cons k v fs =>
    if strStarts k "@odata." then stripNewFields fs
    else .cons k (removeODataProps v) (stripNewFields fs)
termination_by structural fs => fs

end

/-- Key predicate of the legacy `removeODataProps` in `formatResponse`
(oauth-provider.ts:556): a key is deleted iff it starts with `"@odata"` and
is not one of the two allow-listed pagination keys. -/
def isODataRemovedOld (k : String) : Bool :=
  strStarts k "@odata" && !(k = "@odata.nextLink" || k = "@odata.count")

/- `removeODataProps` of `formatResponse` (oauth-provider.ts:549-563):
falsy / non-object values are left alone, arrays are visited element-wise,
and in objects the keys matching `isODataRemovedOld` are deleted while the
remaining values are visited recursively. -/
mutual

/-- See the comment above this mutual block. -/
def removeODataPropsOld : Json → Json
  | .obj fs => .obj (stripOldFields fs)
  | .arr xs => .arr (stripOldList xs)
  | j => j
termination_by structural j => j

def stripOldList : JsonList → JsonList
  | .nil => .nil
  | .cons x xs => .cons (removeODataPropsOld x) (stripOldList xs)
termination_by structural xs => xs

def stripOldFields : JsonFields → JsonFields
  | .nil => .nil
  | .cons k v fs =>
    if isODataRemovedOld k then stripOldFields fs
    else .cons k (removeODataPropsOld v) (stripOldFields fs)
termination_by structural fs => fs

end

mutual

/-- No key anywhere in the tree starts with `"@odata."`. -/
def noODataNew : Json → Bool
  | .obj fs => noODataNewFields fs
  | .arr xs => noODataNewList xs
  | _ => true
termination_by structural j => j

def noODataNewList : JsonList → Bool
  | .nil => true
  | .cons x xs => noODataNew x && noODataNewList xs
termination_by structural xs => xs

def noODataNewFields : JsonFields → Bool
  | .nil => true
  | .cons k v fs => !strStarts k "@odata." && noODataNew v && noODataNewFields fs
termination_by structural fs => fs

end

mutual

/-- No key anywhere in the tree is deleted by the legacy strip. -/
def noODataOld : Json → Bool
  | .obj fs => noODataOldFields fs
  | .arr xs => noODataOldList xs
  | _ => true
termination_by structural j => j

def noODataOldList : JsonList → Bool
  | .nil => true
  | .cons x xs => noODataOld x && noODataOldList xs
termination_by structural xs => xs

def noODataOldFields : JsonFields → Bool
  | .nil => true
  | .cons k v fs => !isODataRemovedOld k && noODataOld v && noODataOldFields fs
termination_by structural fs => fs

end

/-- Compact JSON serialization (stands for `JSON.stringify`; the
pretty-printing whitespace of `JSON.stringify(x, null, 2)` is abstracted). -/
def escapeString (s : String) : String :=
  String.join (s.toList.map fun c =>
    if c = '"' then "\\\"" else if c = '\\' then "\\\\" else String.singleton c)

mutual

def render : Json → String
  | .null => "null"
  | .bool true => "true"
  | .bool false => "false"
  | .num n => toString n
  | .str s => "\"" ++ escapeString s ++ "\""
  | .arr xs => "[" ++ renderList xs ++ "]"
  | .obj fs => "\x7b" ++ renderFields fs ++ "\x7d"
termination_by structural j => j

def renderList : JsonList → String
  | .nil => ""
  | .cons x .nil => render x
  | .cons x xs => render x ++ "," ++ renderList xs
termination_by structural xs => xs

def renderFields : JsonFields → String
  | .nil => ""
  | .cons k v .nil => "\"" ++ escapeString k ++ "\":" ++ render v
  | .cons k v fs => "\"" ++ escapeString k ++ "\":" ++ render v ++ "," ++ renderFields fs
termination_by structural fs => fs

end

/-! ## JavaScript truthiness over `string | null | undefined` -/

/-- `x` where a JS string expression is used in boolean position: `none`
(null/undefined) and `some ""` are falsy; the result keeps the truthy value. -/
def truthyOpt : Option String → Option String
  | some s => if s = "" then none else some s
  | none => none

/-- JS `a || b` for string-valued `a`. -/
def jsOr (a b : Option String) : Option String :=
  match truthyOpt a with
  | some s => some s
  | none => b

/-- JS truthiness test of a string expression. -/
def isTruthy (a : Option String) : Bool := (truthyOpt a).isSome

/-- Template-literal interpolation of a possibly-null string value
(JS renders `null` as the string `"null"`). -/
def tmpl : Option String → String
  | some s => s
  | none => "null"

/-- Coercion of a possibly-`undefined` value used as a fetch header value
(JS `String(undefined) = "undefined"`). -/
def undefStr : Option String → String
  | some s => s
  | none => "undefined"

/-! ## Network / collaborator oracles -/

/-- An HTTP request as issued through `fetch`. -/
structure HttpRequest where
  url : String
  method : String
  headers : List (String × String)
  body : Option String

/-- An HTTP response as observed by the dispatcher.  `jsonBody = none` means
the body is not valid JSON, so `response.json()` throws (in particular a
`204 No Content` response has an empty body).  `bodyText` is what
`response.text()` returns; `contentType` / `contentLength` are the values of
`response.headers.get(...)` (`none` = header absent, returned as `null`). -/
structure Response where
  status : Nat
  statusText : String
  contentType : Option String
  contentLength : Option String
  jsonBody : Option Json
  bodyText : String

/-- `response.ok`: status in the inclusive range 200-299. -/
def Response.ok (r : Response) : Bool := 200 ≤ r.status && r.status ≤ 299

/-- Events recorded while running the model.  `http` is an actual `fetch`;
the others are ghost instrumentation marking calls into the auth-manager
collaborator (`getToken`, `hasWorkAccountPermissions`,
`expandToWorkAccountScopes`) and the private token-refresh helper. -/
inductive Event where
  | http (req : HttpRequest)
  | getToken (force : Bool)
  | hasWorkPermissions
  | expandScopes
  | tokenRefresh

/-- The outside world: an infinite oracle giving the response to the n-th
`fetch`, the number of fetches already made, and the event log. -/
structure World where
  oracle : Nat → Response
  calls : Nat
  log : List Event

/-- Issue a `fetch`: consume the next oracle response and log the request. -/
def fetchStep (w : World) (req : HttpRequest) : Response × World :=
  (w.oracle w.calls,
   { w with calls := w.calls + 1, log := w.log ++ [Event.http req] })

/-- Behaviour of the external `AuthManager` collaborator (its source,
`auth.js`, is outside the dispatcher under study): result of `getToken()`,
of `getToken(true)`, of `hasWorkAccountPermissions()` and of
`expandToWorkAccountScopes()`.  `Except.error` models a thrown exception;
an `Option String` result models `string | null | undefined`. -/
structure Auth where
  getTokenResult : Except String (Option String)
  getTokenForceResult : Except String (Option String)
  hasWorkPermissionsResult : Bool
  expandResult : Bool

/-- `authManager.getToken()` with ghost logging. -/
def callGetToken (auth : Auth) (w : World) : Except String (Option String) × World :=
  (auth.getTokenResult, { w with log := w.log ++ [Event.getToken false] })

/-- `authManager.getToken(true)` with ghost logging. -/
def callGetTokenForce (auth : Auth) (w : World) : Except String (Option String) × World :=
  (auth.getTokenForceResult, { w with log := w.log ++ [Event.getToken true] })

/-- `authManager.hasWorkAccountPermissions()` with ghost logging. -/
def callHasWorkPermissions (auth : Auth) (w : World) : Bool × World :=
  (auth.hasWorkPermissionsResult, { w with log := w.log ++ [Event.hasWorkPermissions] })

/-- `authManager.expandToWorkAccountScopes()` with ghost logging. -/
def callExpandScopes (auth : Auth) (w : World) : Bool × World :=
  (auth.expandResult, { w with log := w.log ++ [Event.expandScopes] })

/-- Relevant `process.env` variables. -/
structure Env where
  tenantId : Option String
  clientId : Option String
  clientSecret : Option String

/-- The mutable fields of a `GraphClient` instance: the Excel session map
(`Map<string, string>`, with `Option String` values so that a JS `undefined`
entry is representable) and the OAuth token fields. -/
structure GCState where
  sessions : List (String × Option String)
  accessToken : Option String
  refreshToken : Option String

/-! ## `Map` operations (insertion order preserved, as in a JS `Map`) -/

def sessGet : List (String × Option String) → String → Option (Option String)
  | [], _ => none
  | (k, v) :: rest, key => if k = key then some v else sessGet rest key

def sessHas (m : List (String × Option String)) (key : String) : Bool :=
  (sessGet m key).isSome

/-- `map.set` replaces an existing key in place, otherwise appends. -/
def sessSet : List (String × Option String) → String → Option String →
    List (String × Option String)
  | [], key, v => [(key, v)]
  | (k, v') :: rest, key, v =>
    if k = key then (k, v) :: rest else (k, v') :: sessSet rest key v

def sessDelete : List (String × Option String) → String → List (String × Option String)
  | [], _ => []
  | (k, v) :: rest, key => if k = key then rest else (k, v) :: sessDelete rest key

/-- `this.sessions.get(filePath) || null` (a stored `undefined` or empty
string yields `null`). -/
def sessGetOrNull (m : List (String × Option String)) (key : String) : Option String :=
  match sessGet m key with
  | some (some s) => if s = "" then none else some s
  | _ => none

/-! ## URLs and shared request pieces -/

def graphBase : String := "https://graph.microsoft.com/v1.0"

def resourceUrl (filePath endpoint : String) : String :=
  graphBase ++ "/me/drive/root:" ++ filePath ++ ":" ++ endpoint

def createSessionUrl (filePath : String) : String :=
  graphBase ++ "/me/drive/root:" ++ filePath ++ ":/workbook/createSession"

def closeSessionUrl (filePath : String) : String :=
  graphBase ++ "/me/drive/root:" ++ filePath ++ ":/workbook/closeSession"

def tokenEndpointUrl (tenantId : String) : String :=
  "https://login.microsoftonline.com/" ++ tenantId ++ "/oauth2/v2.0/token"

def defaultClientId : String := "084a3e9f-a9f4-43f7-89f9-d229cf97853e"

/-- The 403 scope/permission error signature of `makeRequest`
(oauth-provider.ts:176): body text includes `"scope"` or `"permission"`. -/
def scopeSignature (s : String) : Bool :=
  containsSub s "scope" || containsSub s "permission"

/-- `options.method || 'GET'`. -/
def methodOf (m : Option String) : String := (jsOr m (some "GET")).getD "GET"

/-- Object-spread assignment of one key (existing key overwritten in place). -/
def recordSet : List (String × String) → String → String → List (String × String)
  | [], key, v => [(key, v)]
  | (k, v') :: rest, key, v =>
    if k = key then (k, v) :: rest else (k, v') :: recordSet rest key v

/-- `{ ...base, ...extra }`: assign the keys of `extra` in order. -/
def recordMerge (base : List (String × String)) : List (String × String) →
    List (String × String)
  | [] => base
  | (k, v) :: rest => recordMerge (recordSet base k v) rest

def recordGet : List (String × String) → String → Option String
  | [], _ => none
  | (k, v) :: rest, key => if k = key then some v else recordGet rest key

/-- Header object of `performRequest` / `graphRequestOld`:
`{ Authorization, Content-Type, ...(sessionId && { 'workbook-session-id':
sessionId }), ...options.headers }`. -/
def buildHeaders (accessToken : String) (sessionId : Option String)
    (optHeaders : List (String × String)) : List (String × String) :=
  let base := [("Authorization", "Bearer " ++ accessToken),
               ("Content-Type", "application/json")]
  let base :=
    match truthyOpt sessionId with
    | some sid => base ++ [("workbook-session-id", sid)]
    | none => base
  recordMerge base optHeaders

/-- The options object passed to `graphRequest` / `makeRequest`
(`GraphRequestOptions`).  `rawResponse` is JS `boolean | undefined`,
collapsed to `Bool` (`false` = absent/falsy). -/
structure GraphRequestOptions where
  excelFile : Option String := none
  headers : List (String × String) := []
  method : Option String := none
  body : Option String := none
  rawResponse : Bool := false
  accessToken : Option String := none
  refreshToken : Option String := none

/-! ## Routing -/

/-- The fixed resource-scoped path set of `performRequest`
(oauth-provider.ts:232-237 and 247-252): `/drive`, `/users`, `/me`,
`/teams`, `/chats`, `/planner`. -/
def isRawEndpoint6 (endpoint : String) : Bool :=
  strStarts endpoint "/drive" || strStarts endpoint "/users" ||
  strStarts endpoint "/me" || strStarts endpoint "/teams" ||
  strStarts endpoint "/chats" || strStarts endpoint "/planner"

/-- The fixed path set of `graphRequestOld` (oauth-provider.ts:375-381 and
391-397): the six above plus `/sites`. -/
def isRawEndpoint7 (endpoint : String) : Bool :=
  isRawEndpoint6 endpoint || strStarts endpoint "/sites"

inductive Route where
  | session
  | raw
  | missing

/-- Routing of `performRequest` (oauth-provider.ts:230-257): session-scoped
when a truthy `excelFile` is given and the endpoint starts with none of the
six prefixed paths; raw when it starts with one of them; error otherwise. -/
def routeNew (endpoint : String) (excelFile : Option String) : Route :=
  if isTruthy excelFile && !isRawEndpoint6 endpoint then .session
  else if isRawEndpoint6 endpoint then .raw
  else .missing

/-- Routing of `graphRequestOld` (oauth-provider.ts:373-410): same shape but
over the seven prefixed paths (including `/sites`). -/
def routeOld (endpoint : String) (excelFile : Option String) : Route :=
  if isTruthy excelFile && !isRawEndpoint7 endpoint then .session
  else if isRawEndpoint7 endpoint then .raw
  else .missing

/-! ## Session creation (`createSession` / `createSessionWithToken`) -/

/-- Field lookup in a JSON object (JS `result.id`), `none` when the value is
absent or the receiver is not an object (`undefined`). -/
def jsonField : Json → String → Option Json
  | .obj fs, key => lookupField fs key
  | _, _ => none
where lookupField : JsonFields → String → Option Json
  | .nil, _ => none
  | .cons k v rest, key => if k = key then some v else lookupField rest key

/-- String-valued field lookup (non-string field values are outside the
model and treated as absent). -/
def jsonStrField (j : Json) (key : String) : Option String :=
  match jsonField j key with
  | some (.str s) => some s
  | _ => none

/-- The `POST .../workbook/createSession` request both creation functions
issue; `JSON.stringify({ persistChanges: true })`. -/
def createSessionHttpRequest (filePath accessToken : String) : HttpRequest :=
  { url := createSessionUrl filePath
    method := "POST"
    headers := [("Authorization", "Bearer " ++ accessToken),
                ("Content-Type", "application/json")]
    body := some (render (.obj (jfields [("persistChanges", .bool true)]))) }

/-- Shared tail of both creation functions, applied to the fetched response
(oauth-provider.ts:130-144 and 315-329): a non-ok response or an unparsable
body yields `null` without caching; otherwise `result.id` is stored in the
session map and returned (an absent `id` stores/returns `undefined`). -/
def createSessionPost (sessions : List (String × Option String))
    (filePath : String) (resp : Response) :
    Option String × List (String × Option String) :=
  if !resp.ok then (none, sessions)
  else
    match resp.jsonBody with
    | none => (none, sessions)
    | some j =>
      match jsonStrField j "id" with
      | some sid => (some sid, sessSet sessions filePath (some sid))
      | none => (none, sessSet sessions filePath none)

/-- `GraphClient.createSessionWithToken` (oauth-provider.ts:290-330): empty
path yields `null`; a cached entry is returned (`get(filePath) || null`)
without any upstream call; otherwise one upstream session-creation request
is made with the caller's token. -/
def createSessionWithToken (st : GCState) (w : World)
    (filePath accessToken : String) : Option String × GCState × World :=
  if filePath = "" then (none, st, w)
  else if sessHas st.sessions filePath then (sessGetOrNull st.sessions filePath, st, w)
  else
    let (resp, w) := fetchStep w (createSessionHttpRequest filePath accessToken)
    let (res, sessions) := createSessionPost st.sessions filePath resp
    (res, { st with sessions := sessions }, w)

/-- `GraphClient.createSession` (oauth-provider.ts:104-145): as
`createSessionWithToken` but the token comes from `authManager.getToken()`
(a thrown `getToken` is swallowed by the surrounding `try`, yielding
`null`; a `null` token is interpolated into the header). -/
def createSession (auth : Auth) (st : GCState) (w : World) (filePath : String) :
    Option String × GCState × World :=
  if filePath = "" then (none, st, w)
  else if sessHas st.sessions filePath then (sessGetOrNull st.sessions filePath, st, w)
  else
    match callGetToken auth w with
    | (.error _, w) => (none, st, w)
    | (.ok tok, w) =>
      let (resp, w) := fetchStep w (createSessionHttpRequest filePath (tmpl tok))
      let (res, sessions) := createSessionPost st.sessions filePath resp
      (res, { st with sessions := sessions }, w)

/-! ## Token refresh and `performRequest` -/

/-- `grant_type=refresh_token` form body (percent-encoding abstracted). -/
def refreshBody (refreshToken clientId clientSecret : String) : String :=
  "grant_type=refresh_token&refresh_token=" ++ refreshToken ++
  "&client_id=" ++ clientId ++ "&client_secret=" ++ clientSecret

/-- `GraphClient.refreshAccessToken` (oauth-provider.ts:206-220) together
with the inlined `refreshAccessToken` of `lib/microsoft-auth.ts:87-119`:
missing client secret throws before any network call; otherwise one POST to
the token endpoint; on success `this.accessToken` is overwritten with
`response.access_token` and `this.refreshToken` only when
`response.refresh_token` is truthy.  A ghost `tokenRefresh` event marks the
attempt. -/
def refreshAccessTokenM (env : Env) (st : GCState) (w : World)
    (refreshToken : String) : Except String Unit × GCState × World :=
  let tenantId := (jsOr env.tenantId (some "common")).getD "common"
  let clientId := (jsOr env.clientId (some defaultClientId)).getD defaultClientId
  match env.clientSecret with
  | none => (.error "MS365_MCP_CLIENT_SECRET not configured", st, w)
  | some clientSecret =>
    if clientSecret = "" then (.error "MS365_MCP_CLIENT_SECRET not configured", st, w)
    else
      let w := { w with log := w.log ++ [Event.tokenRefresh] }
      let (resp, w) := fetchStep w
        { url := tokenEndpointUrl tenantId
          method := "POST"
          headers := [("Content-Type", "application/x-www-form-urlencoded")]
          body := some (refreshBody refreshToken clientId clientSecret) }
      if !resp.ok then (.error ("Failed to refresh token: " ++ resp.bodyText), st, w)
      else
        match resp.jsonBody with
        | none => (.error "Unexpected end of JSON input", st, w)
        | some j =>
          let st := { st with accessToken := jsonStrField j "access_token" }
          let st :=
            match truthyOpt (jsonStrField j "refresh_token") with
            | some rt => { st with refreshToken := some rt }
            | none => st
          (.ok (), st, w)

/-- `GraphClient.performRequest` (oauth-provider.ts:222-271).  Session
route: look up the session for the file, lazily create one when the lookup
is falsy, rewrite the URL to the resource-scoped form and attach the
session header (when the session id is truthy); raw route: the path is used
unchanged with no session; otherwise throw. -/
def performRequest (st : GCState) (w : World) (endpoint accessToken : String)
    (options : GraphRequestOptions) : Except String Response × GCState × World :=
  match routeNew endpoint options.excelFile with
  | .session =>
    let file := (truthyOpt options.excelFile).getD ""
    let (sessionId, st, w) :=
      match sessGetOrNull st.sessions file with
      | some sid => (some sid, st, w)
      | none => createSessionWithToken st w file accessToken
    let (resp, w) := fetchStep w
      { url := resourceUrl file endpoint
        method := methodOf options.method
        headers := buildHeaders accessToken sessionId options.headers
        body := options.body }
    (.ok resp, st, w)
  | .raw =>
    let (resp, w) := fetchStep w
      { url := graphBase ++ endpoint
        method := methodOf options.method
        headers := buildHeaders accessToken none options.headers
        body := options.body }
    (.ok resp, st, w)
  | .missing => (.error "Excel operation requested without specifying a file", st, w)

/-! ## `makeRequest` and the current dispatch path -/

/-- What `makeRequest` resolves to: the parsed JSON body on the normal
path, or — on both retry paths — the *raw `Response` object itself*
(`return this.performRequest(...)`, oauth-provider.ts:171 and 185). -/
inductive MakeResult where
  | json (j : Json)
  | raw (r : Response)

/- `Except.error` models a thrown exception (the `catch` of `makeRequest`
rethrows).  On 401 with a truthy refresh token: refresh, then return the
retried `performRequest` result unchecked.  On 403 with the scope
signature, not yet holding work permissions, successful expansion and a
truthy fresh token: return the retried result unchecked; every other 403
with the signature falls through to the scope error, as does a plain 403.
Other non-ok statuses throw; otherwise the body is parsed as JSON. -/
/-- The `try` block of `makeRequest` (oauth-provider.ts:157-203), after
token resolution: first attempt, 401-refresh-retry, 403-scope handling,
generic error, JSON parse. -/
def makeRequestAuthed (env : Env) (auth : Auth) (st : GCState) (w : World)
    (endpoint : String) (options : GraphRequestOptions)
    (accessToken : String) (refreshToken : Option String) :
    Except String MakeResult × GCState × World :=
  match performRequest st w endpoint accessToken options with
      | (.error e, st, w) => (.error e, st, w)
      | (.ok response, st, w) =>
        if response.status = 401 && isTruthy refreshToken then
          match refreshAccessTokenM env st w (refreshToken.getD "") with
          | (.error e, st, w) => (.error e, st, w)
          | (.ok _, st, w) =>
            match jsOr st.accessToken (some accessToken) with
            | none => (.error "Failed to refresh access token", st, w)
            | some accessToken2 =>
              let out := performRequest st w endpoint accessToken2 options
              (match out.1 with
               | .error e => .error e
               | .ok retried => .ok (.raw retried), out.2.1, out.2.2)
        else if response.status = 403 then
          let errorText := response.bodyText
          let scopeRetry : Option (Except String MakeResult × GCState × World) :=
            if scopeSignature errorText then
              match callHasWorkPermissions auth w with
              | (true, w1) => some (.error (scopeError response errorText), st, w1)
              | (false, w1) =>
                match callExpandScopes auth w1 with
                | (false, w2) => some (.error (scopeError response errorText), st, w2)
                | (true, w2) =>
                  match callGetToken auth w2 with
                  | (.error e, w3) => some (.error e, st, w3)
                  | (.ok newTokOpt, w3) =>
                    match truthyOpt newTokOpt with
                    | none => some (.error (scopeError response errorText), st, w3)
                    | some newToken =>
                      let out := performRequest st w3 endpoint newToken options
                      some (match out.1 with
                            | .error e => .error e
                            | .ok retried => .ok (.raw retried), out.2.1, out.2.2)
            else none
          match scopeRetry with
          | some out => out
          | none => (.error (scopeError response errorText), st, w)
        else if !response.ok then
          (.error ("Microsoft Graph API error: " ++ toString response.status ++ " " ++
            response.statusText), st, w)
        else
          match response.jsonBody with
          | some j => (.ok (.json j), st, w)
          | none => (.error "Unexpected end of JSON input", st, w)
where scopeError (response : Response) (errorText : String) : String :=
  "Microsoft Graph API scope error: " ++ toString response.status ++ " " ++
    response.statusText ++ " - " ++ errorText

/-- `GraphClient.makeRequest` (oauth-provider.ts:147-204): resolve the token
(`options.accessToken || this.accessToken || await getToken()`), resolve the
refresh token, throw without a truthy access token, then run the `try`
block (`makeRequestAuthed`). -/
def makeRequest (env : Env) (auth : Auth) (st : GCState) (w : World)
    (endpoint : String) (options : GraphRequestOptions) :
    Except String MakeResult × GCState × World :=
  let resolved : Except String (Option String) × World :=
    match jsOr options.accessToken st.accessToken with
    | some t => (.ok (some t), w)
    | none => callGetToken auth w
  match resolved with
  | (.error e, w) => (.error e, st, w)
  | (.ok tokOpt, w) =>
    let refreshToken := jsOr options.refreshToken st.refreshToken
    match truthyOpt tokOpt with
    | none => (.error "No access token available", st, w)
    | some accessToken =>
      makeRequestAuthed env auth st w endpoint options accessToken refreshToken

/-- An MCP tool result: the source only ever emits `text` content items, so
`content` is the list of their `text` fields; `isError := false` models an
absent `isError` field. -/
structure McpResponse where
  content : List String
  isError : Bool := false

/-- `JSON.stringify({ error: message })`. -/
def errorPayload (message : String) : McpResponse :=
  { content := [render (.obj (jfields [("error", .str message)]))], isError := true }

/-- `GraphClient.formatJsonResponse` (oauth-provider.ts:332-363), applied to
a `makeRequest` result.  A raw `Response` object stringifies to an empty
object (its properties are non-enumerable prototype getters), on both the
raw and the normal branch.  `null` data yields `{"success":true}`;
otherwise the OData strip runs and the tree is stringified. -/
def formatJsonResponse (data : MakeResult) (rawResponse : Bool) : McpResponse :=
  match data with
  | .raw _ => { content := [render (.obj .nil)] }
  | .json j =>
    if rawResponse then { content := [render j] }
    else
      match j with
      | .null => { content := [render (.obj (jfields [("success", .bool true)]))] }
      | _ => { content := [render (removeODataProps j)] }

/-- `GraphClient.graphRequest` (oauth-provider.ts:273-288): the current
dispatch path — `makeRequest`, then `formatJsonResponse`; any thrown error
becomes an `isError` result with the message. -/
def graphRequest (env : Env) (auth : Auth) (st : GCState) (w : World)
    (endpoint : String) (options : GraphRequestOptions) :
    McpResponse × GCState × World :=
  match makeRequest env auth st w endpoint options with
  | (.ok result, st, w) => (formatJsonResponse result options.rawResponse, st, w)
  | (.error e, st, w) => (errorPayload e, st, w)

/-! ## Legacy dispatch path (`graphRequestOld`, `formatResponse`) -/

/-- Binary/opaque body descriptor of `formatResponse` (the two variants
differ only in the message). -/
def binaryDescriptor (message : String) (response : Response) : McpResponse :=
  { content := [render (.obj (jfields
      [("message", .str message),
       ("contentType", match response.contentType with
          | some ct => .str ct
          | none => .null),
       ("contentLength", match response.contentLength with
          | some cl => .str cl
          | none => .null)]))] }

/-- `GraphClient.formatResponse` (oauth-provider.ts:484-576): 204 becomes a
fixed success payload; `rawResponse` returns text bodies verbatim and a
descriptor otherwise; non-JSON content types return text or a descriptor;
JSON bodies run the legacy OData strip (with the pagination allow-list) and
are stringified; a JSON parse failure is swallowed into `{"message":
"Success"}` by the catch. -/
def formatResponse (response : Response) (rawResponse : Bool) : McpResponse :=
  if response.status = 204 then
    { content := [render (.obj (jfields
        [("message", .str "Operation completed successfully")]))] }
  else if rawResponse then
    match response.contentType with
    | some ct =>
      if strStarts ct "text/" then { content := [response.bodyText] }
      else binaryDescriptor "Binary file content received" response
    | none => binaryDescriptor "Binary file content received" response
  else
    let jsonCase : McpResponse :=
      match response.jsonBody with
      | some j => { content := [render (removeODataPropsOld j)] }
      | none => { content := [render (.obj (jfields [("message", .str "Success")]))] }
    match response.contentType with
    | some ct =>
      if ct = "" then jsonCase
      else if !containsSub ct "application/json" then
        if strStarts ct "text/" then { content := [response.bodyText] }
        else binaryDescriptor "Binary or non-JSON content received" response
      else jsonCase
    | none => jsonCase

/-- `GraphClient.graphRequestOld` (oauth-provider.ts:365-482): token from
`authManager.getToken()`, routing over the seven prefixed paths (including
`/sites`; a missing file returns a plain content payload *without*
`isError`), one fetch; on 401 a forced `getToken(true)`, a `createSession`
call for session routes (which returns the still-cached handle), header
patching and exactly one retry whose non-ok status throws; other non-ok
statuses throw; results go through `formatResponse`.  Thrown errors become
`isError` payloads. -/
def graphRequestOld (auth : Auth) (st : GCState) (w : World)
    (endpoint : String) (options : GraphRequestOptions) :
    McpResponse × GCState × World :=
  match callGetToken auth w with
  | (.error e, w) => (errorPayload e, st, w)
  | (.ok tokOpt, w) =>
    let accessToken := tmpl tokOpt
    match routeOld endpoint options.excelFile with
    | .missing =>
      ({ content := [render (.obj (jfields
          [("error", .str "No Excel file specified for this operation")]))] }, st, w)
    | route =>
      let file := (truthyOpt options.excelFile).getD ""
      let (sessionId, st, w) :=
        match route with
        | .session =>
          match sessGetOrNull st.sessions file with
          | some sid => (some sid, st, w)
          | none => createSession auth st w file
        | _ => (none, st, w)
      let url :=
        match route with
        | .session => resourceUrl file endpoint
        | _ => graphBase ++ endpoint
      let headers := buildHeaders accessToken sessionId options.headers
      let (response, w) := fetchStep w
        { url := url, method := methodOf options.method, headers := headers
          body := options.body }
      if response.status = 401 then
        match callGetTokenForce auth w with
        | (.error e, w) => (errorPayload e, st, w)
        | (.ok newTokOpt, w) =>
          let (sessionId, st, w) :=
            match route with
            | .session => createSession auth st w file
            | _ => (sessionId, st, w)
          let headers := recordSet headers "Authorization" ("Bearer " ++ tmpl newTokOpt)
          let headers :=
            match route, truthyOpt sessionId with
            | .session, some sid => recordSet headers "workbook-session-id" sid
            | _, _ => headers
          let (retryResponse, w) := fetchStep w
            { url := url, method := methodOf options.method, headers := headers
              body := options.body }
          if !retryResponse.ok then
            (errorPayload ("Graph API error: " ++ toString retryResponse.status ++ " " ++
              retryResponse.bodyText), st, w)
          else (formatResponse retryResponse options.rawResponse, st, w)
      else if !response.ok then
        (errorPayload ("Graph API error: " ++ toString response.status ++ " " ++
          response.bodyText), st, w)
      else (formatResponse response options.rawResponse, st, w)

/-! ## `closeSession` -/

/-- `GraphClient.closeSession` (oauth-provider.ts:578-631): no cached handle
— a plain informational payload; otherwise one POST to the close endpoint
carrying the cached handle; *only* an ok response evicts the cache entry;
any failure (thrown `getToken`, non-ok close) leaves the entry cached and
returns an `isError` payload without throwing. -/
def closeSession (auth : Auth) (st : GCState) (w : World) (filePath : String) :
    McpResponse × GCState × World :=
  if filePath = "" || !sessHas st.sessions filePath then
    ({ content := [render (.obj (jfields
        [("message", .str "No active session for the specified file")]))] }, st, w)
  else
    let sessionId := (sessGet st.sessions filePath).getD none
    let failPayload : McpResponse :=
      { content := [render (.obj (jfields
          [("error", .str ("Failed to close session for " ++ filePath))]))],
        isError := true }
    match callGetToken auth w with
    | (.error _, w) => (failPayload, st, w)
    | (.ok tokOpt, w) =>
      let (response, w) := fetchStep w
        { url := closeSessionUrl filePath
          method := "POST"
          headers := [("Authorization", "Bearer " ++ tmpl tokOpt),
                      ("Content-Type", "application/json"),
                      ("workbook-session-id", undefStr sessionId)]
          body := none }
      if response.ok then
        ({ content := [render (.obj (jfields
            [("message", .str ("Session for " ++ filePath ++ " closed successfully"))]))] },
         { st with sessions := sessDelete st.sessions filePath }, w)
      else (failPayload, st, w)

/-! ## Interleaving model for concurrent `createSessionWithToken` calls

`createSessionWithToken` runs synchronously from its cache check up to the
`fetch`, then suspends (`await fetch`, `await response.json()`) before the
`sessions.set` runs.  A concurrent call scheduled into that window therefore
observes the pre-store cache.  Each thread is the function cut at its await
point, built from the same pieces (`sessHas`/`sessGetOrNull`,
`createSessionHttpRequest`, `createSessionPost`) as the sequential model. -/

inductive Phase where
  | ready
  | waiting (resp : Response)
  | finished (result : Option String)

structure SessionThread where
  filePath : String
  accessToken : String
  phase : Phase

structure Conc where
  sessions : List (String × Option String)
  w : World
  threads : List SessionThread

/-- Run thread `i` for one atomic segment (no-op on finished/absent
threads): `ready` performs the synchronous prelude of
`createSessionWithToken` (cache check, and the `fetch` issue when uncached);
`waiting` performs the post-await tail (`createSessionPost`). -/
def stepThread (c : Conc) (i : Nat) : Conc :=
  match c.threads.get? i with
  | none => c
  | some t =>
    match t.phase with
    | .finished _ => c
    | .ready =>
      if t.filePath = "" then
        { c with threads := c.threads.set i { t with phase := .finished none } }
      else if sessHas c.sessions t.filePath then
        let done := Phase.finished (sessGetOrNull c.sessions t.filePath)
        { c with threads := c.threads.set i { t with phase := done } }
      else
        let (resp, w) := fetchStep c.w (createSessionHttpRequest t.filePath t.accessToken)
        { c with w := w, threads := c.threads.set i { t with phase := .waiting resp } }
    | .waiting resp =>
      let (res, sessions) := createSessionPost c.sessions t.filePath resp
      { sessions := sessions, w := c.w,
        threads := c.threads.set i { t with phase := .finished res } }

/-- Run a schedule (a list of thread indices). -/
def runSched (c : Conc) : List Nat → Conc
  | [] => c
  | i :: rest => runSched (stepThread c i) rest

/-- Number of actual HTTP requests in a log. -/
def httpCount (log : List Event) : Nat :=
  (log.filter fun e => match e with | .http _ => true | _ => false).length

/-- Number of ghost `tokenRefresh` events in a log. -/
def refreshCount (log : List Event) : Nat :=
  (log.filter fun e => match e with | .tokenRefresh => true | _ => false).length

/-- Number of ghost `expandScopes` events in a log. -/
def expandCount (log : List Event) : Nat :=
  (log.filter fun e => match e with | .expandScopes => true | _ => false).length

/-- Result of thread `i` (only meaningful when finished). -/
def threadResult (c : Conc) (i : Nat) : Option (Option String) :=
  match c.threads.get? i with
  | some t =>
    match t.phase with
    | .finished r => some r
    | _ => none
  | none => none

/-! ## Lemmas about the OData strips -/

mutual

theorem noODataNew_strip : ∀ j, noODataNew (removeODataProps j) = true
  | .null => rfl
  | .bool _ => rfl
  | .num _ => rfl
  | .str _ => rfl
  | .arr xs => noODataNewList_strip xs
  | .obj fs => noODataNewFields_strip fs

theorem noODataNewList_strip : ∀ xs, noODataNewList (stripNewList xs) = true
  | .nil => rfl
  | .cons x xs => by
    simp [stripNewList, noODataNewList, noODataNew_strip x, noODataNewList_strip xs]

theorem noODataNewFields_strip : ∀ fs, noODataNewFields (stripNewFields fs) = true
  | .nil => rfl
  | .cons k v fs => by
    by_cases h : strStarts k "@odata."
    · simp [stripNewFields, h, noODataNewFields_strip fs]
    · simp [stripNewFields, h, noODataNewFields, noODataNew_strip v,
        noODataNewFields_strip fs]

end

mutual

theorem strip_of_clean : ∀ j, noODataNew j = true → removeODataProps j = j
  | .null, _ => rfl
  | .bool _, _ => rfl
  | .num _, _ => rfl
  | .str _, _ => rfl
  | .arr xs, h => by
    simp only [noODataNew] at h
    simp [removeODataProps, stripNewList_of_clean xs h]
  | .obj fs, h => by
    simp only [noODataNew] at h
    simp [removeODataProps, stripNewFields_of_clean fs h]

theorem stripNewList_of_clean : ∀ xs, noODataNewList xs = true → stripNewList xs = xs
  | .nil, _ => rfl
  | .cons x xs, h => by
    simp only [noODataNewList, Bool.and_eq_true] at h
    simp [stripNewList, strip_of_clean x h.1, stripNewList_of_clean xs h.2]

theorem stripNewFields_of_clean : ∀ fs, noODataNewFields fs = true → stripNewFields fs = fs
  | .nil, _ => rfl
  | .cons k v fs, h => by
    simp only [noODataNewFields, Bool.and_eq_true, Bool.not_eq_true'] at h
    simp [stripNewFields, h.1.1, strip_of_clean v h.1.2, stripNewFields_of_clean fs h.2]

end

mutual

theorem noODataOld_stripOld : ∀ j, noODataOld (removeODataPropsOld j) = true
  | .null => rfl
  | .bool _ => rfl
  | .num _ => rfl
  | .str _ => rfl
  | .arr xs => noODataOldList_stripOld xs
  | .obj fs => noODataOldFields_stripOld fs

theorem noODataOldList_stripOld : ∀ xs, noODataOldList (stripOldList xs) = true
  | .nil => rfl
  | .cons x xs => by
    simp [stripOldList, noODataOldList, noODataOld_stripOld x, noODataOldList_stripOld xs]

theorem noODataOldFields_stripOld : ∀ fs, noODataOldFields (stripOldFields fs) = true
  | .nil => rfl
  | .cons k v fs => by
    by_cases h : isODataRemovedOld k
    · simp [stripOldFields, h, noODataOldFields_stripOld fs]
    · simp [stripOldFields, h, noODataOldFields, noODataOld_stripOld v,
        noODataOldFields_stripOld fs]

end

mutual

theorem stripOld_of_clean : ∀ j, noODataOld j = true → removeODataPropsOld j = j
  | .null, _ => rfl
  | .bool _, _ => rfl
  | .num _, _ => rfl
  | .str _, _ => rfl
  | .arr xs, h => by
    simp only [noODataOld] at h
    simp [removeODataPropsOld, stripOldList_of_clean xs h]
  | .obj fs, h => by
    simp only [noODataOld] at h
    simp [removeODataPropsOld, stripOldFields_of_clean fs h]

theorem stripOldList_of_clean : ∀ xs, noODataOldList xs = true → stripOldList xs = xs
  | .nil, _ => rfl
  | .cons x xs, h => by
    simp only [noODataOldList, Bool.and_eq_true] at h
    simp [stripOldList, stripOld_of_clean x h.1, stripOldList_of_clean xs h.2]

theorem stripOldFields_of_clean : ∀ fs, noODataOldFields fs = true → stripOldFields fs = fs
  | .nil, _ => rfl
  | .cons k v fs, h => by
    simp only [noODataOldFields, Bool.and_eq_true, Bool.not_eq_true'] at h
    simp [stripOldFields, h.1.1, stripOld_of_clean v h.1.2, stripOldFields_of_clean fs h.2]

end

/-- The keys surviving the legacy strip of an object are exactly the
original keys not matched by `isODataRemovedOld` (in particular the
allow-listed `@odata.nextLink` / `@odata.count` survive). -/
theorem stripOldFields_keys :
    ∀ fs, (stripOldFields fs).keys = fs.keys.filter (fun k => !isODataRemovedOld k)
  | .nil => rfl
  | .cons k v fs => by
    by_cases h : isODataRemovedOld k <;>
      simp [stripOldFields, JsonFields.keys, h, stripOldFields_keys fs]
termination_by structural fs => fs

/-! ## Claim C6 -/

/-- C6 (counterexample): the claim says the normalizer preserves the
pagination allow-list keys `@odata.nextLink` / `@odata.count`.  The current
normalizer (`formatJsonResponse`, used by `graphRequest`) has no allow-list:
at this concrete input both keys are removed, and the payload delivered to
the caller is the empty object. -/
theorem C6_counterexample :
    removeODataProps (.obj (jfields
        [("@odata.nextLink", .str "L"), ("@odata.count", .str "2"),
         ("value", .arr .nil)])) = .obj (jfields [("value", .arr .nil)]) ∧
    formatJsonResponse (.json (.obj (jfields [("@odata.nextLink", .str "L")]))) false
      = { content := [render (.obj .nil)], isError := false } := by
  constructor
  · simp +decide [jfields, removeODataProps, stripNewFields, stripNewList]
  · simp +decide [formatJsonResponse, jfields, removeODataProps, stripNewFields]

/-- C6 (amended): the current normalizer strips every key starting with
`"@odata."` — no allow-list — while the legacy normalizer
(`formatResponse`) keeps exactly the keys not matched by
`isODataRemovedOld`, i.e. it preserves `@odata.nextLink` and
`@odata.count`. -/
theorem C6_amended :
    (∀ j, noODataNew (removeODataProps j) = true) ∧
    (∀ fs, (stripOldFields fs).keys =
      fs.keys.filter (fun k => !isODataRemovedOld k)) :=
  ⟨noODataNew_strip, stripOldFields_keys⟩

/-! ## Claim C7 -/

/-- C7 (counterexample): the claim says normalization never changes the
caller's object graph.  The strip runs `delete obj[key]` on the input
object itself, so after the call the caller's object equals the stripped
tree: on this input (one `@odata.context` key) the object has changed. -/
theorem C7_counterexample :
    removeODataProps (.obj (jfields
        [("@odata.context", .str "ctx"), ("name", .str "n")]))
      ≠ .obj (jfields [("@odata.context", .str "ctx"), ("name", .str "n")]) := by
  simp +decide [jfields, removeODataProps, stripNewFields]

/-- C7 (amended): normalization mutates the input in place; the input is
left unchanged precisely when it contains no strippable key — for the
current strip, no key starting with `"@odata."`; for the legacy strip, no
key matched by `isODataRemovedOld`. -/
theorem C7_amended (j : Json) :
    (removeODataProps j = j ↔ noODataNew j = true) ∧
    (removeODataPropsOld j = j ↔ noODataOld j = true) := by
  constructor
  · constructor
    · intro h
      have hs := noODataNew_strip j
      rwa [h] at hs
    · exact strip_of_clean j
  · constructor
    · intro h
      have hs := noODataOld_stripOld j
      rwa [h] at hs
    · exact stripOld_of_clean j

/-! ## Claim C10 -/

/-- C10 (counterexample): the two dispatch paths are not equivalent.  At
endpoint `"/sites/site1/lists"` the current path (`performRequest`) routes
to the missing-file error (no `excelFile`) or to the session route (with
`excelFile`), while the legacy path treats `/sites` as a raw
resource-scoped path; and the two normalizers disagree on
`@odata.nextLink`. -/
theorem C10_counterexample :
    routeNew "/sites/site1/lists" none = Route.missing ∧
    routeOld "/sites/site1/lists" none = Route.raw ∧
    routeNew "/sites/site1/lists" (some "/f.xlsx") = Route.session ∧
    routeOld "/sites/site1/lists" (some "/f.xlsx") = Route.raw ∧
    removeODataProps (.obj (jfields [("@odata.nextLink", .str "L")])) = .obj .nil ∧
    removeODataPropsOld (.obj (jfields [("@odata.nextLink", .str "L")]))
      = .obj (jfields [("@odata.nextLink", .str "L")]) := by
  refine ⟨?_, ?_, ?_, ?_, ?_, ?_⟩ <;>
    simp +decide [routeNew, routeOld, isRawEndpoint6, isRawEndpoint7, isTruthy,
      truthyOpt, jfields, removeODataProps, removeODataPropsOld, stripNewFields,
      stripOldFields, isODataRemovedOld]

/-- C10 (amended): the routing of the two dispatch paths agrees exactly on
endpoints that do not start with `/sites` (the prefixed-path set of the
current path lacks `/sites`). -/
theorem C10_amended (endpoint : String) (excelFile : Option String)
    (h : strStarts endpoint "/sites" = false) :
    routeNew endpoint excelFile = routeOld endpoint excelFile := by
  simp [routeNew, routeOld, isRawEndpoint7, h]

/-- C10 (witness for the amended theorem) at `"/me/messages"`. -/
theorem C10_amended_witness :
    routeNew "/me/messages" none = routeOld "/me/messages" none :=
  C10_amended "/me/messages" none (by decide)

/-! ## Record lemmas for header construction -/

theorem mem_recordSet_of_ne {m : List (String × String)} {k' v' k v}
    (hmem : (k', v') ∈ m) (hne : k' ≠ k) : (k', v') ∈ recordSet m k v := by
  induction m with
  | nil => cases hmem
  | cons kv rest ih =>
    obtain ⟨k0, v0⟩ := kv
    by_cases h0 : k0 = k
    · subst h0
      simp only [recordSet, if_pos rfl]
      rcases List.mem_cons.mp hmem with heq | hrest
      · cases heq; exact absurd rfl hne
      · exact List.mem_cons_of_mem _ hrest
    · simp only [recordSet, if_neg h0]
      rcases List.mem_cons.mp hmem with heq | hrest
      · exact heq ▸ List.mem_cons_self _ _
      · exact List.mem_cons_of_mem _ (ih hrest)

theorem mem_recordMerge {base : List (String × String)} {k' v'}
    (extra : List (String × String)) (hmem : (k', v') ∈ base)
    (hnone : recordGet extra k' = none) : (k', v') ∈ recordMerge base extra := by
  induction extra generalizing base with
  | nil => exact hmem
  | cons kv rest ih =>
    obtain ⟨k, v⟩ := kv
    simp only [recordGet] at hnone
    by_cases hk : k = k'
    · simp [hk] at hnone
    · simp only [if_neg hk] at hnone
      exact ih (mem_recordSet_of_ne hmem (fun h => hk h.symm)) hnone

theorem recordGet_recordSet (m : List (String × String)) (k v key) :
    recordGet (recordSet m k v) key = if k = key then some v else recordGet m key := by
  induction m with
  | nil => simp [recordSet, recordGet]
  | cons kv rest ih =>
    obtain ⟨k0, v0⟩ := kv
    by_cases h0 : k0 = k
    · subst h0
      by_cases hk : k0 = key <;> simp [recordSet, recordGet, hk]
    · by_cases hk : k0 = key
      · subst hk
        have : k ≠ k0 := fun h => h0 h.symm
        simp [recordSet, recordGet, h0, this]
      · simp [recordSet, recordGet, h0, hk, ih]

theorem recordGet_recordMerge_none {base : List (String × String)} {key}
    (extra : List (String × String)) (hbase : recordGet base key = none)
    (hextra : recordGet extra key = none) :
    recordGet (recordMerge base extra) key = none := by
  induction extra generalizing base with
  | nil => exact hbase
  | cons kv rest ih =>
    obtain ⟨k, v⟩ := kv
    simp only [recordGet] at hextra
    by_cases hk : k = key
    · simp [hk] at hextra
    · simp only [if_neg hk] at hextra
      refine ih ?_ hextra
      rw [recordGet_recordSet, if_neg hk]
      exact hbase

/-- The session header is present in the built header object whenever a
truthy session id is passed and the caller's extra headers do not override
the key. -/
theorem buildHeaders_attaches (accessToken sid : String)
    (optHeaders : List (String × String)) (hsid : sid ≠ "")
    (hopt : recordGet optHeaders "workbook-session-id" = none) :
    ("workbook-session-id", sid) ∈ buildHeaders accessToken (some sid) optHeaders := by
  unfold buildHeaders
  simp only [truthyOpt, if_neg hsid]
  exact mem_recordMerge optHeaders (by simp) hopt

/-- No session header is present when no session id is passed and the
caller's extra headers do not carry the key either. -/
theorem buildHeaders_no_session (accessToken : String)
    (optHeaders : List (String × String))
    (hopt : recordGet optHeaders "workbook-session-id" = none) :
    recordGet (buildHeaders accessToken none optHeaders) "workbook-session-id" = none := by
  unfold buildHeaders
  simp only [truthyOpt]
  exact recordGet_recordMerge_none optHeaders (by simp [recordGet]) hopt

/-- An uncached path yields a falsy lookup. -/
theorem sessGetOrNull_of_not_has {m : List (String × Option String)} {key}
    (h : sessHas m key = false) : sessGetOrNull m key = none := by
  unfold sessGetOrNull
  unfold sessHas at h
  cases hg : sessGet m key with
  | none => rfl
  | some v => rw [hg] at h; simp at h

/-! ## Claim C3 -/

/-- C3: routing of `performRequest`.  (1) With a truthy `excelFile`, an
endpoint outside the fixed prefixed-path set and a cached truthy session
id: exactly one upstream request, to the resource-scoped URL, with the
cached session id passed into the header object; no session-creation call.
(2) Same but uncached: a session-creation request is issued first, then the
resource-scoped request carrying the created session id.  (3) An endpoint
inside the fixed set: one request to the raw URL with no session id.
(4) Neither a truthy `excelFile` nor a prefixed endpoint: the call throws
the missing-file error without any upstream request or state change.
(5)/(6) The header object does contain `workbook-session-id` exactly when a
truthy session id was passed (caller headers not overriding). -/
theorem C3_routing (st : GCState) (w : World) (endpoint accessToken : String)
    (options : GraphRequestOptions) :
    (∀ file sid, truthyOpt options.excelFile = some file →
      isRawEndpoint6 endpoint = false →
      sessGetOrNull st.sessions file = some sid →
      performRequest st w endpoint accessToken options =
        (.ok (w.oracle w.calls), st,
         { w with calls := w.calls + 1
                  log := w.log ++ [Event.http
                    { url := resourceUrl file endpoint
                      method := methodOf options.method
                      headers := buildHeaders accessToken (some sid) options.headers
                      body := options.body }] })) ∧
    (∀ file, truthyOpt options.excelFile = some file →
      isRawEndpoint6 endpoint = false →
      sessHas st.sessions file = false →
      performRequest st w endpoint accessToken options =
        (.ok (w.oracle (w.calls + 1)),
         { st with sessions := (createSessionPost st.sessions file (w.oracle w.calls)).2 },
         { w with calls := w.calls + 2
                  log := w.log ++ [Event.http (createSessionHttpRequest file accessToken),
                    Event.http
                      { url := resourceUrl file endpoint
                        method := methodOf options.method
                        headers := buildHeaders accessToken
                          (createSessionPost st.sessions file (w.oracle w.calls)).1
                          options.headers
                        body := options.body }] })) ∧
    (isRawEndpoint6 endpoint = true →
      performRequest st w endpoint accessToken options =
        (.ok (w.oracle w.calls), st,
         { w with calls := w.calls + 1
                  log := w.log ++ [Event.http
                    { url := graphBase ++ endpoint
                      method := methodOf options.method
                      headers := buildHeaders accessToken none options.headers
                      body := options.body }] })) ∧
    (isTruthy options.excelFile = false → isRawEndpoint6 endpoint = false →
      performRequest st w endpoint accessToken options =
        (.error "Excel operation requested without specifying a file", st, w)) ∧
    (∀ sid, sid ≠ "" → recordGet options.headers "workbook-session-id" = none →
      ("workbook-session-id", sid) ∈ buildHeaders accessToken (some sid) options.headers) ∧
    (recordGet options.headers "workbook-session-id" = none →
      recordGet (buildHeaders accessToken none options.headers) "workbook-session-id"
        = none) := by
  refine ⟨?_, ?_, ?_, ?_, ?_, ?_⟩
  · intro file sid hfile hraw hsess
    have htruthy : isTruthy options.excelFile = true := by simp [isTruthy, hfile]
    simp [performRequest, routeNew, htruthy, hraw, hfile, hsess, fetchStep]
  · intro file hfile hraw hhas
    have htruthy : isTruthy options.excelFile = true := by simp [isTruthy, hfile]
    have hfile0 : file ≠ "" := by
      intro h
      subst h
      cases hx : options.excelFile with
      | none => simp [truthyOpt, hx] at hfile
      | some s =>
        by_cases hs : s = "" <;> simp [truthyOpt, hx, hs] at hfile
    have hnull := sessGetOrNull_of_not_has hhas
    simp [performRequest, routeNew, htruthy, hraw, hfile, hnull,
      createSessionWithToken, hfile0, hhas, fetchStep, List.append_assoc]
  · intro hraw
    simp [performRequest, routeNew, hraw, fetchStep]
  · intro htruthy hraw
    simp [performRequest, routeNew, htruthy, hraw]
  · intro sid hsid hopt
    exact buildHeaders_attaches accessToken sid options.headers hsid hopt
  · intro hopt
    exact buildHeaders_no_session accessToken options.headers hopt

/-- C3 (witness): concrete instance of the cached session case, the raw
case and the missing case. -/
theorem C3_routing_witness :
    performRequest
        { sessions := [("/f.xlsx", some "sid1")], accessToken := none,
          refreshToken := none }
        { oracle := fun _ =>
            { status := 200, statusText := "OK", contentType := some "application/json",
              contentLength := none, jsonBody := some (.obj .nil), bodyText := "" },
          calls := 0, log := [] }
        "/workbook/range" "tok"
        { excelFile := some "/f.xlsx" } =
      (.ok { status := 200, statusText := "OK", contentType := some "application/json",
             contentLength := none, jsonBody := some (.obj .nil), bodyText := "" },
       { sessions := [("/f.xlsx", some "sid1")], accessToken := none,
         refreshToken := none },
       { oracle := fun _ =>
           { status := 200, statusText := "OK", contentType := some "application/json",
             contentLength := none, jsonBody := some (.obj .nil), bodyText := "" },
         calls := 1,
         log := [Event.http
           { url := resourceUrl "/f.xlsx" "/workbook/range"
             method := "GET"
             headers := buildHeaders "tok" (some "sid1") []
             body := none }] }) := by
  have h := (C3_routing
      { sessions := [("/f.xlsx", some "sid1")], accessToken := none,
        refreshToken := none }
      { oracle := fun _ =>
          { status := 200, statusText := "OK", contentType := some "application/json",
            contentLength := none, jsonBody := some (.obj .nil), bodyText := "" },
        calls := 0, log := [] }
      "/workbook/range" "tok"
      { excelFile := some "/f.xlsx" }).1 "/f.xlsx" "sid1"
      (by decide) (by decide) (by decide)
  simpa [methodOf, jsOr, truthyOpt] using h

/-! ## Claim C4 -/

/-- C4: per-path uniqueness of cached session handles.  (1)/(2) Both
creation entry points return the cached value for an already-cached path,
with the world (hence the request log) and the state unchanged — no
upstream session-creation call.  (3) For an uncached path, exactly one
upstream creation request is issued and the returned id is stored for that
path. -/
theorem C4_cache (auth : Auth) (st : GCState) (w : World) (f tok : String) :
    (∀ sid, f ≠ "" → sessGet st.sessions f = some sid →
      createSessionWithToken st w f tok = (sessGetOrNull st.sessions f, st, w)) ∧
    (∀ sid, f ≠ "" → sessGet st.sessions f = some sid →
      createSession auth st w f = (sessGetOrNull st.sessions f, st, w)) ∧
    (∀ j sid, f ≠ "" → sessHas st.sessions f = false →
      (w.oracle w.calls).ok = true →
      (w.oracle w.calls).jsonBody = some j →
      jsonStrField j "id" = some sid →
      createSessionWithToken st w f tok =
        (some sid, { st with sessions := sessSet st.sessions f (some sid) },
         { w with calls := w.calls + 1
                  log := w.log ++ [Event.http (createSessionHttpRequest f tok)] })) := by
  refine ⟨?_, ?_, ?_⟩
  · intro sid hf hsess
    simp [createSessionWithToken, hf, sessHas, hsess]
  · intro sid hf hsess
    simp [createSession, hf, sessHas, hsess]
  · intro j sid hf hhas hok hbody hid
    simp [createSessionWithToken, hf, hhas, fetchStep, createSessionPost, hok,
      hbody, hid]

/-- C4 (witness): cached path returns the cached handle with no request. -/
theorem C4_cache_witness :
    createSessionWithToken
        { sessions := [("/f.xlsx", some "sid1")], accessToken := none,
          refreshToken := none }
        { oracle := fun _ =>
            { status := 200, statusText := "OK", contentType := none,
              contentLength := none, jsonBody := none, bodyText := "" },
          calls := 0, log := [] }
        "/f.xlsx" "tok" =
      (some "sid1",
       { sessions := [("/f.xlsx", some "sid1")], accessToken := none,
         refreshToken := none },
       { oracle := fun _ =>
           { status := 200, statusText := "OK", contentType := none,
             contentLength := none, jsonBody := none, bodyText := "" },
         calls := 0, log := [] }) := by
  have h := (C4_cache
      { getTokenResult := .ok (some "t"), getTokenForceResult := .ok (some "t"),
        hasWorkPermissionsResult := false, expandResult := false }
      { sessions := [("/f.xlsx", some "sid1")], accessToken := none,
        refreshToken := none }
      { oracle := fun _ =>
          { status := 200, statusText := "OK", contentType := none,
            contentLength := none, jsonBody := none, bodyText := "" },
        calls := 0, log := [] }
      "/f.xlsx" "tok").1 "sid1" (by decide) (by decide)
  simpa [sessGetOrNull, sessGet] using h

/-! ## Claim C8 -/

/-- C8 (counterexample): the claim says the handle is evicted from the
cache regardless of whether the upstream close succeeds.  Concrete run with
a cached handle and an upstream 500: the call returns the failure payload
and the session map still contains the handle — no eviction on failure. -/
theorem C8_counterexample :
    closeSession
        { getTokenResult := .ok (some "tok"), getTokenForceResult := .ok (some "tok"),
          hasWorkPermissionsResult := false, expandResult := false }
        { sessions := [("/f.xlsx", some "sid1")], accessToken := none,
          refreshToken := none }
        { oracle := fun _ =>
            { status := 500, statusText := "Internal Server Error", contentType := none,
              contentLength := none, jsonBody := none, bodyText := "boom" },
          calls := 0, log := [] }
        "/f.xlsx" =
      ({ content := [render (.obj (jfields
            [("error", .str "Failed to close session for /f.xlsx")]))],
         isError := true },
       { sessions := [("/f.xlsx", some "sid1")], accessToken := none,
         refreshToken := none },
       { oracle := fun _ =>
           { status := 500, statusText := "Internal Server Error", contentType := none,
             contentLength := none, jsonBody := none, bodyText := "boom" },
         calls := 1,
         log := [Event.getToken false, Event.http
           { url := closeSessionUrl "/f.xlsx"
             method := "POST"
             headers := [("Authorization", "Bearer tok"),
                         ("Content-Type", "application/json"),
                         ("workbook-session-id", "sid1")]
             body := none }] }) := by
  simp +decide [closeSession, sessHas, sessGet, callGetToken, fetchStep,
    Response.ok, tmpl, undefStr]

/-- C8 (amended): when a handle is cached, one upstream close request is
issued (after one `getToken`); on an ok response the handle is evicted and
a non-error payload returned; on a non-ok response the handle stays cached
and an `isError` payload is returned — the call never throws (it always
returns an `McpResponse`). -/
theorem C8_amended (auth : Auth) (st : GCState) (w : World) (f : String)
    (tok : Option String) (hf : f ≠ "") (hhas : sessHas st.sessions f = true)
    (htok : auth.getTokenResult = .ok tok) :
    ((closeSession auth st w f).2.2.log = w.log ++
      [Event.getToken false, Event.http
        { url := closeSessionUrl f
          method := "POST"
          headers := [("Authorization", "Bearer " ++ tmpl tok),
                      ("Content-Type", "application/json"),
                      ("workbook-session-id",
                        undefStr ((sessGet st.sessions f).getD none))]
          body := none }]) ∧
    ((w.oracle w.calls).ok = true →
      (closeSession auth st w f).2.1.sessions = sessDelete st.sessions f ∧
      (closeSession auth st w f).1.isError = false) ∧
    ((w.oracle w.calls).ok = false →
      (closeSession auth st w f).2.1.sessions = st.sessions ∧
      (closeSession auth st w f).1.isError = true) := by
  refine ⟨?_, ?_, ?_⟩
  · cases hok : (w.oracle w.calls).ok <;>
      simp [closeSession, hf, hhas, htok, callGetToken, fetchStep, hok,
        List.append_assoc]
  · intro hok
    simp [closeSession, hf, hhas, htok, callGetToken, fetchStep, hok]
  · intro hok
    simp [closeSession, hf, hhas, htok, callGetToken, fetchStep, hok]

/-- C8 (witness for the amended theorem): success case evicts. -/
theorem C8_amended_witness :
    (closeSession
        { getTokenResult := .ok (some "tok"), getTokenForceResult := .ok (some "tok"),
          hasWorkPermissionsResult := false, expandResult := false }
        { sessions := [("/f.xlsx", some "sid1")], accessToken := none,
          refreshToken := none }
        { oracle := fun _ =>
            { status := 200, statusText := "OK", contentType := none,
              contentLength := none, jsonBody := none, bodyText := "" },
          calls := 0, log := [] }
        "/f.xlsx").2.1.sessions = [] := by
  have h := ((C8_amended
      { getTokenResult := .ok (some "tok"), getTokenForceResult := .ok (some "tok"),
        hasWorkPermissionsResult := false, expandResult := false }
      { sessions := [("/f.xlsx", some "sid1")], accessToken := none,
        refreshToken := none }
      { oracle := fun _ =>
          { status := 200, statusText := "OK", contentType := none,
            contentLength := none, jsonBody := none, bodyText := "" },
        calls := 0, log := [] }
      "/f.xlsx" (some "tok") (by decide) (by decide) rfl).2.1 (by decide)).1
  simpa [sessDelete] using h

/-! ## Claim C9 -/

/-- C9 (divergence witness): a dispatch through the current path
(`graphRequest`) whose upstream call returns `204 No Content` (empty body,
so `response.json()` throws) surfaces an `isError` payload with the JSON
parse error — `makeRequest` has no 204 handling and parses the body
unconditionally (oauth-provider.ts:199) — whereas the legacy normalizer
`formatResponse` explicitly maps 204 to the success payload the claim
describes (oauth-provider.ts:486-497). -/
theorem C9_divergence :
    (graphRequest
        { tenantId := none, clientId := none, clientSecret := none }
        { getTokenResult := .ok (some "tok"), getTokenForceResult := .ok (some "tok"),
          hasWorkPermissionsResult := false, expandResult := false }
        { sessions := [], accessToken := none, refreshToken := none }
        { oracle := fun _ =>
            { status := 204, statusText := "No Content", contentType := none,
              contentLength := none, jsonBody := none, bodyText := "" },
          calls := 0, log := [] }
        "/me/messages" { accessToken := some "tok" }).1
      = errorPayload "Unexpected end of JSON input" ∧
    formatResponse
        { status := 204, statusText := "No Content", contentType := none,
          contentLength := none, jsonBody := none, bodyText := "" } false
      = { content := [render (.obj (jfields
            [("message", .str "Operation completed successfully")]))],
          isError := false } := by
  constructor
  · simp +decide [graphRequest, makeRequest, makeRequestAuthed, performRequest,
      routeNew, isRawEndpoint6, isTruthy, truthyOpt, jsOr, fetchStep,
      Response.ok, methodOf]
  · simp [formatResponse]

/-! ## Claim C5 -/

/-- C5 (counterexample): two concurrent `getOrCreate` calls for the same
path that both run their cache check before either stores (schedule
0,1,0,1) issue **two** upstream creation requests and observe **different**
session handles — there is no in-flight-creation wait in the code.  The
claim (exactly one upstream request, same handle) is false on this run. -/
theorem C5_counterexample :
    httpCount (runSched
      { sessions := []
        w := { oracle := fun n =>
                 if n = 0 then
                   { status := 200, statusText := "OK", contentType := none,
                     contentLength := none,
                     jsonBody := some (.obj (jfields [("id", .str "s1")])),
                     bodyText := "" }
                 else
                   { status := 200, statusText := "OK", contentType := none,
                     contentLength := none,
                     jsonBody := some (.obj (jfields [("id", .str "s2")])),
                     bodyText := "" },
               calls := 0, log := [] }
        threads := [{ filePath := "/f.xlsx", accessToken := "tokA", phase := .ready },
                    { filePath := "/f.xlsx", accessToken := "tokB", phase := .ready }] }
      [0, 1, 0, 1]).w.log = 2 ∧
    threadResult (runSched
      { sessions := []
        w := { oracle := fun n =>
                 if n = 0 then
                   { status := 200, statusText := "OK", contentType := none,
                     contentLength := none,
                     jsonBody := some (.obj (jfields [("id", .str "s1")])),
                     bodyText := "" }
                 else
                   { status := 200, statusText := "OK", contentType := none,
                     contentLength := none,
                     jsonBody := some (.obj (jfields [("id", .str "s2")])),
                     bodyText := "" },
               calls := 0, log := [] }
        threads := [{ filePath := "/f.xlsx", accessToken := "tokA", phase := .ready },
                    { filePath := "/f.xlsx", accessToken := "tokB", phase := .ready }] }
      [0, 1, 0, 1]) 0 = some (some "s1") ∧
    threadResult (runSched
      { sessions := []
        w := { oracle := fun n =>
                 if n = 0 then
                   { status := 200, statusText := "OK", contentType := none,
                     contentLength := none,
                     jsonBody := some (.obj (jfields [("id", .str "s1")])),
                     bodyText := "" }
                 else
                   { status := 200, statusText := "OK", contentType := none,
                     contentLength := none,
                     jsonBody := some (.obj (jfields [("id", .str "s2")])),
                     bodyText := "" },
               calls := 0, log := [] }
        threads := [{ filePath := "/f.xlsx", accessToken := "tokA", phase := .ready },
                    { filePath := "/f.xlsx", accessToken := "tokB", phase := .ready }] }
      [0, 1, 0, 1]) 1 = some (some "s2") := by
  refine ⟨?_, ?_, ?_⟩ <;>
    simp +decide [runSched, stepThread, fetchStep, sessHas, sessGet,
      createSessionPost, Response.ok, jsonStrField, jsonField,
      jsonField.lookupField, jfields, sessSet, threadResult, httpCount,
      createSessionHttpRequest]

/-- C5 (amended): the dedup the claim describes only holds when the calls
do not overlap: under the sequential schedule (0,0,1,1) — the second call
starts after the first completes — exactly one upstream creation request is
issued and both callers observe the same handle, which is also the single
cached entry. -/
theorem C5_amended (f a1 a2 sid : String) (j : Json) (oracle : Nat → Response)
    (hf : f ≠ "") (hsid : sid ≠ "")
    (hok : (oracle 0).ok = true) (hbody : (oracle 0).jsonBody = some j)
    (hid : jsonStrField j "id" = some sid) :
    httpCount (runSched
      { sessions := [], w := { oracle := oracle, calls := 0, log := [] }
        threads := [{ filePath := f, accessToken := a1, phase := .ready },
                    { filePath := f, accessToken := a2, phase := .ready }] }
      [0, 0, 1, 1]).w.log = 1 ∧
    threadResult (runSched
      { sessions := [], w := { oracle := oracle, calls := 0, log := [] }
        threads := [{ filePath := f, accessToken := a1, phase := .ready },
                    { filePath := f, accessToken := a2, phase := .ready }] }
      [0, 0, 1, 1]) 0 = some (some sid) ∧
    threadResult (runSched
      { sessions := [], w := { oracle := oracle, calls := 0, log := [] }
        threads := [{ filePath := f, accessToken := a1, phase := .ready },
                    { filePath := f, accessToken := a2, phase := .ready }] }
      [0, 0, 1, 1]) 1 = some (some sid) ∧
    (runSched
      { sessions := [], w := { oracle := oracle, calls := 0, log := [] }
        threads := [{ filePath := f, accessToken := a1, phase := .ready },
                    { filePath := f, accessToken := a2, phase := .ready }] }
      [0, 0, 1, 1]).sessions = [(f, some sid)] := by
  refine ⟨?_, ?_, ?_, ?_⟩ <;>
    simp [runSched, stepThread, fetchStep, sessHas, sessGet, createSessionPost,
      hf, hok, hbody, hid, hsid, sessSet, sessGetOrNull, threadResult,
      httpCount]

/-- C5 (witness for the amended theorem). -/
theorem C5_amended_witness :
    httpCount (runSched
      { sessions := []
        w := { oracle := fun _ =>
                 { status := 200, statusText := "OK", contentType := none,
                   contentLength := none,
                   jsonBody := some (.obj (jfields [("id", .str "s1")])),
                   bodyText := "" },
               calls := 0, log := [] }
        threads := [{ filePath := "/f.xlsx", accessToken := "tokA", phase := .ready },
                    { filePath := "/f.xlsx", accessToken := "tokB", phase := .ready }] }
      [0, 0, 1, 1]).w.log = 1 :=
  (C5_amended "/f.xlsx" "tokA" "tokB" "s1" (.obj (jfields [("id", .str "s1")]))
    (fun _ =>
      { status := 200, statusText := "OK", contentType := none,
        contentLength := none,
        jsonBody := some (.obj (jfields [("id", .str "s1")])),
        bodyText := "" })
    (by decide) (by decide) (by decide) rfl (by simp +decide [jsonStrField,
      jsonField, jsonField.lookupField, jfields])).1

/-! ## Event-count lemmas -/

theorem refreshCount_append (l1 l2 : List Event) :
    refreshCount (l1 ++ l2) = refreshCount l1 + refreshCount l2 := by
  simp [refreshCount, List.filter_append]

theorem expandCount_append (l1 l2 : List Event) :
    expandCount (l1 ++ l2) = expandCount l1 + expandCount l2 := by
  simp [expandCount, List.filter_append]

theorem counts_createSessionWithToken (st : GCState) (w : World) (f tok : String) :
    refreshCount (createSessionWithToken st w f tok).2.2.log = refreshCount w.log ∧
    expandCount (createSessionWithToken st w f tok).2.2.log = expandCount w.log := by
  unfold createSessionWithToken
  by_cases hf : f = ""
  · simp [hf]
  · by_cases hh : sessHas st.sessions f
    · simp [hf, hh]
    · simp [hf, hh, fetchStep, refreshCount_append, expandCount_append,
        refreshCount, expandCount, createSessionPost]

theorem counts_createSession (auth : Auth) (st : GCState) (w : World) (f : String) :
    refreshCount (createSession auth st w f).2.2.log = refreshCount w.log ∧
    expandCount (createSession auth st w f).2.2.log = expandCount w.log := by
  unfold createSession
  by_cases hf : f = ""
  · simp [hf]
  · by_cases hh : sessHas st.sessions f
    · simp [hf, hh]
    · cases htok : auth.getTokenResult with
      | error e =>
        simp [hf, hh, callGetToken, htok, refreshCount_append, expandCount_append,
          refreshCount, expandCount]
      | ok tok =>
        simp [hf, hh, callGetToken, htok, fetchStep, refreshCount_append,
          expandCount_append, refreshCount, expandCount, createSessionPost]

theorem counts_performRequest (st : GCState) (w : World) (e tok : String)
    (opts : GraphRequestOptions) :
    refreshCount (performRequest st w e tok opts).2.2.log = refreshCount w.log ∧
    expandCount (performRequest st w e tok opts).2.2.log = expandCount w.log := by
  unfold performRequest
  cases routeNew e opts.excelFile with
  | missing => exact ⟨rfl, rfl⟩
  | raw =>
    simp [fetchStep, refreshCount_append, expandCount_append, refreshCount, expandCount]
  | session =>
    cases hc : sessGetOrNull st.sessions ((truthyOpt opts.excelFile).getD "") with
    | some sid =>
      simp [hc, fetchStep, refreshCount_append, expandCount_append,
        refreshCount, expandCount]
    | none =>
      rcases hcr : createSessionWithToken st w ((truthyOpt opts.excelFile).getD "") tok
        with ⟨res, st1, w1⟩
      have hcounts := counts_createSessionWithToken st w
        ((truthyOpt opts.excelFile).getD "") tok
      rw [hcr] at hcounts
      simp only [hc, hcr, fetchStep]
      constructor
      · simpa [refreshCount_append, refreshCount] using hcounts.1
      · simpa [expandCount_append, expandCount] using hcounts.2

theorem counts_refreshAccessTokenM (env : Env) (st : GCState) (w : World) (rt : String) :
    refreshCount (refreshAccessTokenM env st w rt).2.2.log ≤ refreshCount w.log + 1 ∧
    expandCount (refreshAccessTokenM env st w rt).2.2.log = expandCount w.log := by
  unfold refreshAccessTokenM
  cases env.clientSecret with
  | none => exact ⟨Nat.le_succ _, rfl⟩
  | some cs =>
    by_cases hcs : cs = ""
    · simp [hcs]
    · have hbase :
          refreshCount (w.log ++ [Event.tokenRefresh] ++ [Event.http
            { url := tokenEndpointUrl ((jsOr env.tenantId (some "common")).getD "common")
              method := "POST"
              headers := [("Content-Type", "application/x-www-form-urlencoded")]
              body := some (refreshBody rt
                ((jsOr env.clientId (some defaultClientId)).getD defaultClientId) cs) }])
            = refreshCount w.log + 1 := by
        simp [refreshCount_append, refreshCount]
      simp only [hcs, if_neg, ite_false]
      constructor
      · split <;> simp_all [fetchStep, refreshCount_append, refreshCount] <;>
          (try split) <;> simp_all <;> omega
      · split <;> simp_all [fetchStep, expandCount_append, expandCount] <;>
          (try split) <;> simp_all

theorem refreshCount_snoc_http (l : List Event) (req : HttpRequest) :
    refreshCount (l ++ [Event.http req]) = refreshCount l := by
  simp [refreshCount, List.filter_append, List.filter]

theorem refreshCount_snoc_getToken (l : List Event) (b : Bool) :
    refreshCount (l ++ [Event.getToken b]) = refreshCount l := by
  simp [refreshCount, List.filter_append, List.filter]

theorem refreshCount_snoc_hasWork (l : List Event) :
    refreshCount (l ++ [Event.hasWorkPermissions]) = refreshCount l := by
  simp [refreshCount, List.filter_append, List.filter]

theorem refreshCount_snoc_expand (l : List Event) :
    refreshCount (l ++ [Event.expandScopes]) = refreshCount l := by
  simp [refreshCount, List.filter_append, List.filter]

theorem refreshCount_snoc_refresh (l : List Event) :
    refreshCount (l ++ [Event.tokenRefresh]) = refreshCount l + 1 := by
  simp [refreshCount, List.filter_append, List.filter]

theorem expandCount_snoc_http (l : List Event) (req : HttpRequest) :
    expandCount (l ++ [Event.http req]) = expandCount l := by
  simp [expandCount, List.filter_append, List.filter]

theorem expandCount_snoc_getToken (l : List Event) (b : Bool) :
    expandCount (l ++ [Event.getToken b]) = expandCount l := by
  simp [expandCount, List.filter_append, List.filter]

theorem expandCount_snoc_hasWork (l : List Event) :
    expandCount (l ++ [Event.hasWorkPermissions]) = expandCount l := by
  simp [expandCount, List.filter_append, List.filter]

theorem expandCount_snoc_expand (l : List Event) :
    expandCount (l ++ [Event.expandScopes]) = expandCount l + 1 := by
  simp [expandCount, List.filter_append, List.filter]

theorem expandCount_snoc_refresh (l : List Event) :
    expandCount (l ++ [Event.tokenRefresh]) = expandCount l := by
  simp [expandCount, List.filter_append, List.filter]

theorem counts_makeRequestAuthed (env : Env) (auth : Auth) (st : GCState)
    (w : World) (e : String) (opts : GraphRequestOptions) (a : String)
    (rt : Option String) :
    refreshCount (makeRequestAuthed env auth st w e opts a rt).2.2.log ≤
      refreshCount w.log + 1 ∧
    expandCount (makeRequestAuthed env auth st w e opts a rt).2.2.log ≤
      expandCount w.log + 1 := by
  unfold makeRequestAuthed
  rcases hp : performRequest st w e a opts with ⟨r, st1, w1⟩
  have h1 := counts_performRequest st w e a opts
  rw [hp] at h1
  simp only [Prod.snd] at h1
  cases r with
  | error msg =>
    simp only []
    omega
  | ok resp =>
    simp only []
    by_cases h401 : (decide (resp.status = 401) && isTruthy rt) = true
    · simp only [h401, if_true]
      rcases hr : refreshAccessTokenM env st1 w1 (rt.getD "") with ⟨r2, st2, w2⟩
      have h2 := counts_refreshAccessTokenM env st1 w1 (rt.getD "")
      rw [hr] at h2
      simp only [Prod.snd] at h2
      cases r2 with
      | error msg => simp only []; omega
      | ok u =>
        simp only []
        cases jsOr st2.accessToken (some a) with
        | none => simp only []; omega
        | some a2 =>
          simp only []
          have h3 := counts_performRequest st2 w2 e a2 opts
          omega
    · simp only [Bool.not_eq_true] at h401
      simp only [h401, Bool.false_eq_true, if_false]
      by_cases h403 : resp.status = 403
      · simp [h403, callHasWorkPermissions, callExpandScopes, callGetToken]
        by_cases hsig : scopeSignature resp.bodyText = true
        · simp only [hsig, if_true]
          cases hwp : auth.hasWorkPermissionsResult with
          | true =>
            simp only []
            constructor <;>
              simp only [refreshCount_snoc_hasWork, expandCount_snoc_hasWork] <;>
              omega
          | false =>
            simp only []
            cases hex : auth.expandResult with
            | false =>
              simp only []
              constructor <;>
                simp only [refreshCount_snoc_hasWork, expandCount_snoc_hasWork,
                  refreshCount_snoc_expand, expandCount_snoc_expand] <;>
              omega
            | true =>
              simp only []
              cases hgt : auth.getTokenResult with
              | error msg =>
                simp only []
                constructor <;>
                  simp only [refreshCount_snoc_hasWork, expandCount_snoc_hasWork,
                    refreshCount_snoc_expand, expandCount_snoc_expand,
                    refreshCount_snoc_getToken, expandCount_snoc_getToken] <;>
                omega
              | ok tk =>
                simp only []
                cases htk : truthyOpt tk with
                | none =>
                  simp only []
                  constructor <;>
                    simp only [refreshCount_snoc_hasWork, expandCount_snoc_hasWork,
                      refreshCount_snoc_expand, expandCount_snoc_expand,
                      refreshCount_snoc_getToken, expandCount_snoc_getToken] <;>
                  omega
                | some nt =>
                  simp only []
                  have h4 := counts_performRequest st1
                    { w1 with log := ((w1.log ++ [Event.hasWorkPermissions]) ++
                        [Event.expandScopes]) ++ [Event.getToken false] } e nt opts
                  simp only [refreshCount_snoc_hasWork, expandCount_snoc_hasWork,
                    refreshCount_snoc_expand, expandCount_snoc_expand,
                    refreshCount_snoc_getToken, expandCount_snoc_getToken] at h4
                  constructor <;> omega
        · simp only [hsig, Bool.false_eq_true, if_false]
          constructor <;> omega
      · rw [if_neg h403]
        split
        · dsimp only
          constructor <;> omega
        · split <;> (dsimp only; constructor <;> omega)

theorem counts_makeRequest (env : Env) (auth : Auth) (st : GCState) (w : World)
    (e : String) (opts : GraphRequestOptions) :
    refreshCount (makeRequest env auth st w e opts).2.2.log ≤
      refreshCount w.log + 1 ∧
    expandCount (makeRequest env auth st w e opts).2.2.log ≤
      expandCount w.log + 1 := by
  unfold makeRequest
  cases hres : jsOr opts.accessToken st.accessToken with
  | some t =>
    simp only [hres]
    cases truthyOpt (some t) with
    | none => simp only []; omega
    | some a => exact counts_makeRequestAuthed env auth st w e opts a _
  | none =>
    simp only [hres, callGetToken]
    cases hgt : auth.getTokenResult with
    | error msg =>
      simp only []
      constructor <;>
        simp only [refreshCount_snoc_getToken, expandCount_snoc_getToken] <;>
      omega
    | ok tokOpt =>
      simp only []
      cases truthyOpt tokOpt with
      | none =>
        simp only []
        constructor <;>
          simp only [refreshCount_snoc_getToken, expandCount_snoc_getToken] <;>
        omega
      | some a =>
        simp only []
        have h := counts_makeRequestAuthed env auth st
          { w with log := w.log ++ [Event.getToken false] } e opts a
          (jsOr opts.refreshToken st.refreshToken)
        simp only [refreshCount_snoc_getToken, expandCount_snoc_getToken] at h
        exact h

/-! ## Claim C1 -/

/-- C1 (amended), part 1: the exact 401-retry behaviour of the current
dispatch path on a session-scoped call with a cached handle.  Given a
truthy resolved access token, a truthy refresh token, a configured client
secret and a refresh that succeeds with a fresh token: the dispatcher
issues the main request, refreshes exactly once (one token-endpoint call),
and retries exactly once with the same URL, method, body and the *same
cached session handle* (no session recreation — the session map is
unchanged and no creation request appears in the log); the retried response
is returned raw, without status inspection, whatever its status (in
particular a second 401 is *not* surfaced as an error).  Part 2: on every
run whatsoever, at most one token refresh is attempted. -/
theorem C1_amended :
    (∀ (env : Env) (auth : Auth) (st : GCState) (w : World)
       (endpoint : String) (options : GraphRequestOptions)
       (file sid a rt cs : String) (jr : Json) (t2 : String),
      truthyOpt options.excelFile = some file →
      isRawEndpoint6 endpoint = false →
      sessGetOrNull st.sessions file = some sid →
      jsOr options.accessToken st.accessToken = some a →
      a ≠ "" →
      jsOr options.refreshToken st.refreshToken = some rt →
      rt ≠ "" →
      env.clientSecret = some cs →
      cs ≠ "" →
      (w.oracle w.calls).status = 401 →
      (w.oracle (w.calls + 1)).ok = true →
      (w.oracle (w.calls + 1)).jsonBody = some jr →
      jsonStrField jr "access_token" = some t2 →
      t2 ≠ "" →
      jsonStrField jr "refresh_token" = none →
      (makeRequest env auth st w endpoint options).1
          = .ok (.raw (w.oracle (w.calls + 2))) ∧
        (makeRequest env auth st w endpoint options).2.1.sessions = st.sessions ∧
        (makeRequest env auth st w endpoint options).2.1.accessToken = some t2 ∧
        (makeRequest env auth st w endpoint options).2.2.calls = w.calls + 3 ∧
        (makeRequest env auth st w endpoint options).2.2.log = w.log ++
          [Event.http
            { url := resourceUrl file endpoint
              method := methodOf options.method
              headers := buildHeaders a (some sid) options.headers
              body := options.body },
           Event.tokenRefresh,
           Event.http
            { url := tokenEndpointUrl ((jsOr env.tenantId (some "common")).getD "common")
              method := "POST"
              headers := [("Content-Type", "application/x-www-form-urlencoded")]
              body := some (refreshBody rt
                ((jsOr env.clientId (some defaultClientId)).getD defaultClientId) cs) },
           Event.http
            { url := resourceUrl file endpoint
              method := methodOf options.method
              headers := buildHeaders t2 (some sid) options.headers
              body := options.body }]) ∧
    (∀ (env : Env) (auth : Auth) (st : GCState) (w : World)
       (endpoint : String) (options : GraphRequestOptions),
      refreshCount (makeRequest env auth st w endpoint options).2.2.log ≤
        refreshCount w.log + 1) := by
  constructor
  · intro env auth st w endpoint options file sid a rt cs jr t2
      h1 h2 h3 h4 h5 h6 h7 h8 h9 h10 h11 h12 h13 h14 h15
    have htr : isTruthy options.excelFile = true := by simp [isTruthy, h1]
    have ha : truthyOpt (some a) = some a := by simp [truthyOpt, h5]
    have hrt : isTruthy (jsOr options.refreshToken st.refreshToken) = true := by
      simp [isTruthy, truthyOpt, h6, h7]
    have hgd : (jsOr options.refreshToken st.refreshToken).getD "" = rt := by
      simp [h6]
    have h15a : truthyOpt (jsonStrField jr "refresh_token") = none := by
      simp [h15, truthyOpt]
    have hj2 : jsOr (some t2) (some a) = some t2 := by
      simp [jsOr, truthyOpt, h14]
    have hrt2 : isTruthy (some rt) = true := by simp [isTruthy, truthyOpt, h7]
    refine ⟨?_, ?_, ?_, ?_, ?_⟩ <;>
      simp [makeRequest, makeRequestAuthed, performRequest, routeNew, htr,
        h1, h2, h3, h4, h6, h8, h9, h10, h11, h12, h13, h15a, ha, hrt, hrt2,
        hgd, hj2, fetchStep, refreshAccessTokenM, List.append_assoc]
  · intro env auth st w endpoint options
    exact (counts_makeRequest env auth st w endpoint options).1

/-- C1 (counterexample): concrete dispatch via the current path
(`graphRequest`) with a cached session handle where the first attempt and
the retry both return 401.  Contrary to the claim, (i) the double 401 is
not surfaced as Unauthorized: the raw retried `Response` object is fed to
`formatJsonResponse`, which stringifies it as the empty object — a
non-error payload; (ii) the session handle is not recreated: the session
map is unchanged and the log holds exactly three requests (attempt, token
refresh, retry) with no session-creation call. -/
theorem C1_counterexample :
    (graphRequest
        { tenantId := none, clientId := none, clientSecret := some "sec" }
        { getTokenResult := .ok (some "t"), getTokenForceResult := .ok (some "t"),
          hasWorkPermissionsResult := false, expandResult := false }
        { sessions := [("/f.xlsx", some "sid1")], accessToken := none,
          refreshToken := none }
        { oracle := fun n =>
            if n = 1 then
              { status := 200, statusText := "OK", contentType := some "application/json",
                contentLength := none,
                jsonBody := some (.obj (jfields [("access_token", .str "t2")])),
                bodyText := "" }
            else
              { status := 401, statusText := "Unauthorized", contentType := none,
                contentLength := none, jsonBody := none, bodyText := "" },
          calls := 0, log := [] }
        "/workbook/range"
        { excelFile := some "/f.xlsx", accessToken := some "tok",
          refreshToken := some "rtok" }).1
      = { content := [render (.obj .nil)], isError := false } ∧
    (graphRequest
        { tenantId := none, clientId := none, clientSecret := some "sec" }
        { getTokenResult := .ok (some "t"), getTokenForceResult := .ok (some "t"),
          hasWorkPermissionsResult := false, expandResult := false }
        { sessions := [("/f.xlsx", some "sid1")], accessToken := none,
          refreshToken := none }
        { oracle := fun n =>
            if n = 1 then
              { status := 200, statusText := "OK", contentType := some "application/json",
                contentLength := none,
                jsonBody := some (.obj (jfields [("access_token", .str "t2")])),
                bodyText := "" }
            else
              { status := 401, statusText := "Unauthorized", contentType := none,
                contentLength := none, jsonBody := none, bodyText := "" },
          calls := 0, log := [] }
        "/workbook/range"
        { excelFile := some "/f.xlsx", accessToken := some "tok",
          refreshToken := some "rtok" }).2.1.sessions
      = [("/f.xlsx", some "sid1")] ∧
    httpCount (graphRequest
        { tenantId := none, clientId := none, clientSecret := some "sec" }
        { getTokenResult := .ok (some "t"), getTokenForceResult := .ok (some "t"),
          hasWorkPermissionsResult := false, expandResult := false }
        { sessions := [("/f.xlsx", some "sid1")], accessToken := none,
          refreshToken := none }
        { oracle := fun n =>
            if n = 1 then
              { status := 200, statusText := "OK", contentType := some "application/json",
                contentLength := none,
                jsonBody := some (.obj (jfields [("access_token", .str "t2")])),
                bodyText := "" }
            else
              { status := 401, statusText := "Unauthorized", contentType := none,
                contentLength := none, jsonBody := none, bodyText := "" },
          calls := 0, log := [] }
        "/workbook/range"
        { excelFile := some "/f.xlsx", accessToken := some "tok",
          refreshToken := some "rtok" }).2.2.log = 3 := by
  refine ⟨?_, ?_, ?_⟩ <;>
    simp +decide [graphRequest, makeRequest, makeRequestAuthed, performRequest,
      routeNew, isRawEndpoint6, isTruthy, truthyOpt, jsOr, fetchStep,
      refreshAccessTokenM, jsonStrField, jsonField, jsonField.lookupField,
      jfields, sessGetOrNull, sessGet, formatJsonResponse, Response.ok,
      methodOf, httpCount, tokenEndpointUrl, refreshBody, defaultClientId]

/-- C1 (witness for the amended theorem): the scripted 401 scenario at a
concrete input; the retried response is returned raw. -/
theorem C1_amended_witness :
    (makeRequest
        { tenantId := none, clientId := none, clientSecret := some "sec" }
        { getTokenResult := .ok (some "t"), getTokenForceResult := .ok (some "t"),
          hasWorkPermissionsResult := false, expandResult := false }
        { sessions := [("/f.xlsx", some "sid1")], accessToken := none,
          refreshToken := none }
        { oracle := fun n =>
            if n = 1 then
              { status := 200, statusText := "OK", contentType := some "application/json",
                contentLength := none,
                jsonBody := some (.obj (jfields [("access_token", .str "t2")])),
                bodyText := "" }
            else
              { status := 401, statusText := "Unauthorized", contentType := none,
                contentLength := none, jsonBody := none, bodyText := "" },
          calls := 0, log := [] }
        "/workbook/range"
        { excelFile := some "/f.xlsx", accessToken := some "tok",
          refreshToken := some "rtok" }).1
      = .ok (.raw
          { status := 401, statusText := "Unauthorized", contentType := none,
            contentLength := none, jsonBody := none, bodyText := "" }) := by
  have h := (C1_amended.1
      { tenantId := none, clientId := none, clientSecret := some "sec" }
      { getTokenResult := .ok (some "t"), getTokenForceResult := .ok (some "t"),
        hasWorkPermissionsResult := false, expandResult := false }
      { sessions := [("/f.xlsx", some "sid1")], accessToken := none,
        refreshToken := none }
      { oracle := fun n =>
          if n = 1 then
            { status := 200, statusText := "OK", contentType := some "application/json",
              contentLength := none,
              jsonBody := some (.obj (jfields [("access_token", .str "t2")])),
              bodyText := "" }
          else
            { status := 401, statusText := "Unauthorized", contentType := none,
              contentLength := none, jsonBody := none, bodyText := "" },
        calls := 0, log := [] }
      "/workbook/range"
      { excelFile := some "/f.xlsx", accessToken := some "tok",
        refreshToken := some "rtok" }
      "/f.xlsx" "sid1" "tok" "rtok" "sec" (.obj (jfields [("access_token", .str "t2")]))
      "t2" (by decide) (by decide) (by decide) (by decide) (by decide) (by decide)
      (by decide) rfl (by decide) (by decide) (by decide) rfl
      (by simp +decide [jsonStrField, jsonField, jsonField.lookupField, jfields])
      (by decide)
      (by simp +decide [jsonStrField, jsonField, jsonField.lookupField, jfields])).1
  simpa using h

/-! ## Claim C2 -/

/-- C2 (amended): the 403 scope handling of the current path on a
raw-routed endpoint.  (1) Base tier (`hasWorkAccountPermissions` false),
expansion succeeds and a truthy fresh token is obtained: exactly one
expansion attempt, one retry carrying the fresh token and the original
method/body, and the retried response is returned raw *without status
inspection* — a still-failing retry is not surfaced as an error.  (2) Tier
already expanded: the scope error (carrying the original error body)
surfaces immediately, with no expansion attempt and no retry.  (3) Silent
expansion refused: the scope error surfaces with no retry.  (4) On every
run whatsoever, at most one expansion attempt is made. -/
theorem C2_amended :
    (∀ (env : Env) (auth : Auth) (st : GCState) (w : World)
       (endpoint : String) (options : GraphRequestOptions) (a t2 : String),
      isRawEndpoint6 endpoint = true →
      jsOr options.accessToken st.accessToken = some a →
      a ≠ "" →
      (w.oracle w.calls).status = 403 →
      scopeSignature (w.oracle w.calls).bodyText = true →
      auth.hasWorkPermissionsResult = false →
      auth.expandResult = true →
      auth.getTokenResult = .ok (some t2) →
      t2 ≠ "" →
      (makeRequest env auth st w endpoint options).1
          = .ok (.raw (w.oracle (w.calls + 1))) ∧
        (makeRequest env auth st w endpoint options).2.2.log = w.log ++
          [Event.http
            { url := graphBase ++ endpoint
              method := methodOf options.method
              headers := buildHeaders a none options.headers
              body := options.body },
           Event.hasWorkPermissions, Event.expandScopes, Event.getToken false,
           Event.http
            { url := graphBase ++ endpoint
              method := methodOf options.method
              headers := buildHeaders t2 none options.headers
              body := options.body }]) ∧
    (∀ (env : Env) (auth : Auth) (st : GCState) (w : World)
       (endpoint : String) (options : GraphRequestOptions) (a : String),
      isRawEndpoint6 endpoint = true →
      jsOr options.accessToken st.accessToken = some a →
      a ≠ "" →
      (w.oracle w.calls).status = 403 →
      scopeSignature (w.oracle w.calls).bodyText = true →
      auth.hasWorkPermissionsResult = true →
      (makeRequest env auth st w endpoint options).1
          = .error (makeRequestAuthed.scopeError (w.oracle w.calls)
              (w.oracle w.calls).bodyText) ∧
        (makeRequest env auth st w endpoint options).2.2.log = w.log ++
          [Event.http
            { url := graphBase ++ endpoint
              method := methodOf options.method
              headers := buildHeaders a none options.headers
              body := options.body },
           Event.hasWorkPermissions]) ∧
    (∀ (env : Env) (auth : Auth) (st : GCState) (w : World)
       (endpoint : String) (options : GraphRequestOptions) (a : String),
      isRawEndpoint6 endpoint = true →
      jsOr options.accessToken st.accessToken = some a →
      a ≠ "" →
      (w.oracle w.calls).status = 403 →
      scopeSignature (w.oracle w.calls).bodyText = true →
      auth.hasWorkPermissionsResult = false →
      auth.expandResult = false →
      (makeRequest env auth st w endpoint options).1
          = .error (makeRequestAuthed.scopeError (w.oracle w.calls)
              (w.oracle w.calls).bodyText) ∧
        (makeRequest env auth st w endpoint options).2.2.log = w.log ++
          [Event.http
            { url := graphBase ++ endpoint
              method := methodOf options.method
              headers := buildHeaders a none options.headers
              body := options.body },
           Event.hasWorkPermissions, Event.expandScopes]) ∧
    (∀ (env : Env) (auth : Auth) (st : GCState) (w : World)
       (endpoint : String) (options : GraphRequestOptions),
      expandCount (makeRequest env auth st w endpoint options).2.2.log ≤
        expandCount w.log + 1) := by
  refine ⟨?_, ?_, ?_, ?_⟩
  · intro env auth st w endpoint options a t2 h1 h2 h3 h4 h5 h6 h7 h8 h9
    have ha : truthyOpt (some a) = some a := by simp [truthyOpt, h3]
    have ht2 : truthyOpt (some t2) = some t2 := by simp [truthyOpt, h9]
    constructor <;>
      simp [makeRequest, makeRequestAuthed, performRequest, routeNew,
        h1, h2, h4, h5, h6, h7, h8, ha, ht2, fetchStep,
        callHasWorkPermissions, callExpandScopes, callGetToken,
        List.append_assoc]
  · intro env auth st w endpoint options a h1 h2 h3 h4 h5 h6
    have ha : truthyOpt (some a) = some a := by simp [truthyOpt, h3]
    constructor <;>
      simp [makeRequest, makeRequestAuthed, performRequest, routeNew,
        h1, h2, h4, h5, h6, ha, fetchStep, callHasWorkPermissions,
        List.append_assoc]
  · intro env auth st w endpoint options a h1 h2 h3 h4 h5 h6 h7
    have ha : truthyOpt (some a) = some a := by simp [truthyOpt, h3]
    constructor <;>
      simp [makeRequest, makeRequestAuthed, performRequest, routeNew,
        h1, h2, h4, h5, h6, h7, ha, fetchStep, callHasWorkPermissions,
        callExpandScopes, List.append_assoc]
  · intro env auth st w endpoint options
    exact (counts_makeRequest env auth st w endpoint options).2

/-- C2 (counterexample): concrete dispatch whose first attempt returns 403
with a scope-signature body at base tier; expansion succeeds, the retry
returns 403 again — and contrary to the claim no `InsufficientScope` error
surfaces: the raw retried `Response` is stringified to the empty object
with `isError` absent.  Exactly one expansion and one retry occur. -/
theorem C2_counterexample :
    (graphRequest
        { tenantId := none, clientId := none, clientSecret := none }
        { getTokenResult := .ok (some "t2"), getTokenForceResult := .ok (some "t2"),
          hasWorkPermissionsResult := false, expandResult := true }
        { sessions := [], accessToken := none, refreshToken := none }
        { oracle := fun _ =>
            { status := 403, statusText := "Forbidden", contentType := none,
              contentLength := none, jsonBody := none,
              bodyText := "insufficient privileges: missing scope" },
          calls := 0, log := [] }
        "/me/messages" { accessToken := some "tok" }).1
      = { content := [render (.obj .nil)], isError := false } ∧
    expandCount (graphRequest
        { tenantId := none, clientId := none, clientSecret := none }
        { getTokenResult := .ok (some "t2"), getTokenForceResult := .ok (some "t2"),
          hasWorkPermissionsResult := false, expandResult := true }
        { sessions := [], accessToken := none, refreshToken := none }
        { oracle := fun _ =>
            { status := 403, statusText := "Forbidden", contentType := none,
              contentLength := none, jsonBody := none,
              bodyText := "insufficient privileges: missing scope" },
          calls := 0, log := [] }
        "/me/messages" { accessToken := some "tok" }).2.2.log = 1 ∧
    httpCount (graphRequest
        { tenantId := none, clientId := none, clientSecret := none }
        { getTokenResult := .ok (some "t2"), getTokenForceResult := .ok (some "t2"),
          hasWorkPermissionsResult := false, expandResult := true }
        { sessions := [], accessToken := none, refreshToken := none }
        { oracle := fun _ =>
            { status := 403, statusText := "Forbidden", contentType := none,
              contentLength := none, jsonBody := none,
              bodyText := "insufficient privileges: missing scope" },
          calls := 0, log := [] }
        "/me/messages" { accessToken := some "tok" }).2.2.log = 2 := by
  refine ⟨?_, ?_, ?_⟩ <;>
    simp +decide [graphRequest, makeRequest, makeRequestAuthed, performRequest,
      routeNew, isRawEndpoint6, isTruthy, truthyOpt, jsOr, fetchStep,
      scopeSignature, containsSub, hasInfix, callHasWorkPermissions,
      callExpandScopes, callGetToken, formatJsonResponse, Response.ok,
      methodOf, httpCount, expandCount]

/-- C2 (witness for the amended theorem): instance of its
already-expanded-tier part — the scope error surfaces immediately. -/
theorem C2_amended_witness :
    (makeRequest
        { tenantId := none, clientId := none, clientSecret := none }
        { getTokenResult := .ok (some "t2"), getTokenForceResult := .ok (some "t2"),
          hasWorkPermissionsResult := true, expandResult := true }
        { sessions := [], accessToken := none, refreshToken := none }
        { oracle := fun _ =>
            { status := 403, statusText := "Forbidden", contentType := none,
              contentLength := none, jsonBody := none,
              bodyText := "insufficient privileges: missing scope" },
          calls := 0, log := [] }
        "/me/messages" { accessToken := some "tok" }).1
      = .error (makeRequestAuthed.scopeError
          { status := 403, statusText := "Forbidden", contentType := none,
            contentLength := none, jsonBody := none,
            bodyText := "insufficient privileges: missing scope" }
          "insufficient privileges: missing scope") := by
  have h := ((C2_amended.2.1)
      { tenantId := none, clientId := none, clientSecret := none }
      { getTokenResult := .ok (some "t2"), getTokenForceResult := .ok (some "t2"),
        hasWorkPermissionsResult := true, expandResult := true }
      { sessions := [], accessToken := none, refreshToken := none }
      { oracle := fun _ =>
          { status := 403, statusText := "Forbidden", contentType := none,
            contentLength := none, jsonBody := none,
            bodyText := "insufficient privileges: missing scope" },
        calls := 0, log := [] }
      "/me/messages" { accessToken := some "tok" } "tok"
      (by decide) (by decide) (by decide) rfl
      (by simp +decide [scopeSignature, containsSub, hasInfix]) rfl).1
  simpa using h
